import Mathlib

/-!
# Verification of the StatusbarLog core

Shallow embedding of the StatusbarLog C++ library
(`src/statusbarlog.cc`, `src/sink.cc`, `include/statusbarlog/sink.h`)
and proofs about its sanitizers, handle registries, renderer and the
Log/Update facade.

Modelling conventions:
* C++ byte strings (`std::string`) are `List Nat`, one entry per byte
  (0 ≤ b < 256 in all reachable states; `char` signedness is folded into
  the byte-value case split).
* `unsigned int` arithmetic is `Nat` with explicit `% 2^32` where the
  source can overflow; `std::size_t` is `Nat` with `sizeMax = 2^64 - 1`
  appearing where the source mentions `SIZE_MAX`.
* status codes (`int`) are `Int`.
* The sink registry is a `List (Option Sink)` because the C++ registry
  stores `std::unique_ptr<Sink>`: a moved-from slot is `none`.
* Undefined behaviour (out-of-bounds `std::vector` access, null
  `unique_ptr` dereference) is made explicit with `Except String`:
  `.error` marks a crashing execution.
* The terminal environment (tty-ness, `ioctl` window size, `close`
  failure) is a record `Env` passed explicitly.
-/

namespace StatusbarLog

/-- `SIZE_MAX` of the target platform (64-bit). -/
def sizeMax : Nat := 2 ^ 64 - 1

/-- One past the largest `unsigned int` value (32-bit). -/
def uintMax : Nat := 2 ^ 32

/-- `std::size_t` subtraction `a - b` (wraps modulo `2^64`); faithful to the
capacity checks `registry.size() - free_handles.size()`. Both arguments are
below `2^64` in every reachable state. -/
def usizeSub (a b : Nat) : Nat := (a + (2 ^ 64 - b)) % 2 ^ 64

/-- `statusbar_log::kStatusbarLogSuccess`. -/
def kStatusbarLogSuccess : Int := 0

/-- Byte sequence of the UTF-8 replacement character `U+FFFD` which the
sanitizers append for disallowed bytes. -/
def replacementBytes : List Nat := [0xEF, 0xBF, 0xBD]

/-- `_SanitizeStringWithNewline` from `statusbarlog.cc`: keeps `\n` (10),
`\t` (9) and printable ASCII 32..126, replaces the remaining control bytes
(`(unsigned char)c < 32` or `c == 127`) by `U+FFFD`, and keeps every other
byte (the high bytes 128..255, for which all three C++ guard conditions on a
signed `char` are false) unchanged. -/
def _SanitizeStringWithNewline : List Nat → List Nat
  | [] => []
  | c :: rest =>
      (if c = 10 ∨ c = 9 ∨ (32 ≤ c ∧ c ≤ 126) then [c]
       else if c < 32 ∨ c = 127 then replacementBytes
       else [c]) ++ _SanitizeStringWithNewline rest

/-- `_SanitizeString` from `statusbarlog.cc`: same as
`_SanitizeStringWithNewline` but only `\t` (9) is allowed through among the
control bytes, so `\n` (10) is replaced. -/
def _SanitizeString : List Nat → List Nat
  | [] => []
  | c :: rest =>
      (if c = 9 ∨ (32 ≤ c ∧ c ≤ 126) then [c]
       else if c < 32 ∨ c = 127 then replacementBytes
       else [c]) ++ _SanitizeString rest

/-! ## Handles and registries (`sink.h`, `sink.cc`, `statusbarlog.cc`) -/

/-- `sink::SinkHandle`: `{idx : size_t, id : unsigned int, valid : bool}`.
`sink::SinkHandle()` value-initializes to all zeroes / `false`. -/
structure SinkHandle where
  idx : Nat
  id : Nat
  valid : Bool
  deriving Repr, DecidableEq

instance : Inhabited SinkHandle := ⟨⟨0, 0, false⟩⟩

/-- `StatusbarHandle`: same layout as `SinkHandle`. -/
structure StatusbarHandle where
  idx : Nat
  id : Nat
  valid : Bool
  deriving Repr, DecidableEq

instance : Inhabited StatusbarHandle := ⟨⟨0, 0, false⟩⟩

/-- `sink::SinkType`. -/
inductive SinkType where
  | kSinkInvalid
  | kSinkStdout
  | kSinkFileOwned
  | kSinkOstreamWrapped
  deriving Repr, DecidableEq

/-- `sink::Sink` registry payload. `out` models `out != nullptr`, `outGood`
the stream's good state, `ownedFile` models `owned_file != nullptr`. The
mutex is not modelled (calls are interleaved atomically). -/
structure Sink where
  out : Bool
  outGood : Bool
  ownedFile : Bool
  path : List Nat
  type : SinkType
  fd : Int
  id : Nat
  deriving Repr, DecidableEq

/-- `fileno(stdout)`. -/
def stdoutFd : Int := 1

/-- `sink::kMaxSinkHandles` (from `sink.h`). -/
def kMaxSinkHandles : Nat := 20

/-- The sink registry trio `_sink_registry` / `_sink_free_handles` /
`_sink_handle_id_count`. A registry slot is `Option Sink` because the C++
vector stores `std::unique_ptr<Sink>`: `none` is a moved-from (null) slot. -/
structure SinkState where
  registry : List (Option Sink)
  free : List SinkHandle
  idCount : Nat
  deriving Repr, DecidableEq

/-- The empty sink registry (program start). -/
def SinkState.initial : SinkState := ⟨[], [], 0⟩

/-- `sink::IsValidSinkHandle` (`sink.cc`). Returns `.error` when the C++
code dereferences a null registry slot (undefined behaviour). -/
def IsValidSinkHandle (ss : SinkState) (h : SinkHandle) : Except String Int :=
  if h.valid = false then .ok (-1)
  else if h.idx ≥ ss.registry.length ∨ h.idx = sizeMax then .ok (-2)
  else
    match ss.registry.get? h.idx with
    | some (some s) =>
        if h.id ≠ s.id then .ok (-3)
        else if h.id = 0 then .ok (-4)
        else .ok 0
    | _ => .error "null sink registry slot dereferenced in IsValidSinkHandle"

/-- `sink::IsValidSinkHandleVerbose`: same verdict as `IsValidSinkHandle`
(the verbose variant only adds warning output; its `-5` fallback branch is
unreachable). -/
def IsValidSinkHandleVerbose (ss : SinkState) (h : SinkHandle) :
    Except String Int :=
  IsValidSinkHandle ss h

/-- The statusbar registry payload `Statusbar` (`statusbarlog.cc`). -/
structure Statusbar where
  sink_handle : SinkHandle
  percentages : List ℚ
  positions : List Nat
  bar_sizes : List Nat
  prefixes : List (List Nat)
  postfixes : List (List Nat)
  spin_idxs : List Nat
  id : Nat
  error_reported : Bool
  deriving Repr, DecidableEq

/-- The statusbar registry trio `_statusbar_registry` /
`_statusbar_free_handles` / `_statusbar_handle_id_count`. Slots are stored
by value (no `unique_ptr`), so no null slots exist here. -/
structure SbState where
  registry : List Statusbar
  free : List StatusbarHandle
  idCount : Nat
  deriving Repr, DecidableEq

/-- The empty statusbar registry (program start). -/
def SbState.initial : SbState := ⟨[], [], 0⟩

/-- `_IsValidStatusbarHandle` (`statusbarlog.cc`): the four-case handle
check. -/
def _IsValidStatusbarHandle (st : SbState) (h : StatusbarHandle) : Int :=
  if h.valid = false then -1
  else if h.idx ≥ st.registry.length ∨ h.idx = sizeMax then -2
  else
    match st.registry.get? h.idx with
    | some sb =>
        if h.id ≠ sb.id then -3
        else if h.id = 0 then -4
        else 0
    | none => -2  -- unreachable: the out-of-bounds case returned above

/-! ## Environment and configuration -/

/-- The terminal/OS environment consumed by the core: tty-ness of the
process's output, the `ioctl(TIOCGWINSZ)` result, and whether closing an
owned file reports failure. -/
structure Env where
  isTty : Bool
  termWidth : Option Nat
  closeFails : Bool
  deriving Repr, DecidableEq

/-- Modelled from the spec: the compile-time configuration constants from
the generated header `statusbarlog.h`, which is not part of the repository
snapshot (only its users are). Per spec §6 these are "fixed constants
consumed by the core, not computed by it", so they are parameters of the
embedding. -/
structure Config where
  kMaxStatusbarHandles : Nat
  kMaxLogLength : Nat
  kMaxFilenameLength : Nat
  kMaxPrefixLength : Nat
  kMaxPostfixLength : Nat
  kMaxBarWidth : Nat
  kLogLevel : Nat
  deriving Repr, DecidableEq

/-- `LogLevel` enum values `kLogLevelOff < kLogLevelErr < kLogLevelWrn <
kLogLevelInf < kLogLevelDbg` (numeric 0..4). -/
inductive LogLevel where
  | kLogLevelOff
  | kLogLevelErr
  | kLogLevelWrn
  | kLogLevelInf
  | kLogLevelDbg
  deriving Repr, DecidableEq

/-- Numeric value of a `LogLevel` enumerator. -/
def LogLevel.toNat : LogLevel → Nat
  | .kLogLevelOff => 0
  | .kLogLevelErr => 1
  | .kLogLevelWrn => 2
  | .kLogLevelInf => 3
  | .kLogLevelDbg => 4

/-- `INT_MAX`, used as the "no terminal width limit" value for
non-interactive sinks. -/
def intMax : Nat := 2 ^ 31 - 1

/-- `_GetTerminalWidth` (`statusbarlog.cc`, Unix branch): on `ioctl`
success the window width, on failure the default 80 columns and status
`-2`. (The Windows branch differs only in returning `-1`; the claims do not
distinguish the two.) -/
def _GetTerminalWidth (env : Env) : Int × Nat :=
  match env.termWidth with
  | some w => (kStatusbarLogSuccess, w)
  | none => (-2, 80)

/-! ## Sink registry operations (`sink.cc`) -/

/-- `sink::SinkIsTty`: validates (verbose), null-checks the slot, then
reports tty-ness of fd-backed sinks; non-fd sinks that do not wrap
`std::cout`/`std::cerr` are never tty. -/
def SinkIsTty (env : Env) (ss : SinkState) (h : SinkHandle) :
    Except String Bool := do
  let e ← IsValidSinkHandleVerbose ss h
  if e ≠ 0 then return false
  match ss.registry.get? h.idx with
  | some (some s) => return (if s.fd ≥ 0 then env.isTty else false)
  | _ => return false

/-- `unsigned int` id-counter increment with wraparound skipping 0
(`_sink_handle_id_count++; if (== 0) ++` pattern of `CreateSinkStdout` and
`CreateStatusbarHandle`). -/
def _bumpId (c : Nat) : Nat :=
  if (c + 1) % uintMax = 0 then (c + 1) % uintMax + 1
  else (c + 1) % uintMax

/-- Result triple of a sink registry operation: status code, new registry
state, the caller's handle after the call (the C++ functions mutate it in
place). -/
structure SinkOpResult where
  status : Int
  ss : SinkState
  h : SinkHandle
  deriving Repr, DecidableEq

/-- `sink::_ValidateSinkCreation`: refuses a still-valid handle (`-1`,
handle untouched), then invalidates the handle and checks capacity
(`registry.size() - free_handles.size() >= kMaxSinkHandles` in `size_t`
arithmetic, `-2`). -/
def _ValidateSinkCreation (ss : SinkState) (h : SinkHandle) :
    Except String (Int × SinkHandle) := do
  let err ← IsValidSinkHandle ss h
  if err = 0 then return (-1, h)
  let h := { h with valid := false, id := 0 }
  if usizeSub ss.registry.length ss.free.length ≥ kMaxSinkHandles then
    return (-2, h)
  return (0, h)

/-- `sink::CreateSinkStdout`. Reuses the most recently freed slot (back of
`_sink_free_handles`, modelled as the list head) or appends a new slot. -/
def CreateSinkStdout (ss : SinkState) (h : SinkHandle) :
    Except String SinkOpResult := do
  let r ← _ValidateSinkCreation ss h
  if r.1 ≠ 0 then return ⟨r.1, ss, r.2⟩
  let h := r.2
  let newId := _bumpId ss.idCount
  let newSink : Sink :=
    ⟨true, true, false, [], .kSinkStdout, stdoutFd, newId⟩
  match ss.free with
  | fh :: rest =>
      match ss.registry.get? fh.idx with
      | some (some _) =>
          let h := { h with idx := fh.idx, id := newId, valid := true }
          return ⟨0, ⟨ss.registry.set fh.idx (some newSink), rest, newId⟩, h⟩
      | _ => .error "null sink registry slot dereferenced in CreateSinkStdout"
  | [] =>
      let h := { h with idx := ss.registry.length, id := newId, valid := true }
      return ⟨0, ⟨ss.registry ++ [some newSink], [], newId⟩, h⟩

/-- `sink::DestroySinkHandle`. The slot's `unique_ptr` is moved out first;
on owned-file close failure the function returns `-6` with the registry
slot still null and the caller's handle untouched (the moved-out `Sink` is
freed at scope exit). On success the cleared sink is moved back, the handle
is invalidated and pushed onto the free list. -/
def DestroySinkHandle (env : Env) (ss : SinkState) (h : SinkHandle) :
    Except String SinkOpResult := do
  let err ← IsValidSinkHandleVerbose ss h
  if err ≠ 0 then return ⟨err, ss, h⟩
  match ss.registry.get? h.idx with
  | some (some target) =>
      let regMoved := ss.registry.set h.idx none
      let target := { target with out := false }
      if target.ownedFile ∧ env.closeFails then
        return ⟨-6, { ss with registry := regMoved }, h⟩
      let cleared : Sink :=
        { target with ownedFile := false, type := .kSinkInvalid,
                      fd := -1, id := 0 }
      let h' := { h with valid := false, id := 0 }
      return ⟨0, ⟨regMoved.set h.idx (some cleared), h' :: ss.free,
        ss.idCount⟩, h'⟩
  | _ => .error "null sink registry slot dereferenced in DestroySinkHandle"

/-! ## Renderer (`_DrawStatusbarComponent` and helpers) -/

/-- The spinner glyphs `{'|', '/', '-', '\\'}` as bytes. -/
def spinner : List Nat := [124, 47, 45, 92]

/-- Decimal digits of a natural number as ASCII bytes. -/
def natToBytes (n : Nat) : List Nat := (toString n).data.map Char.toNat

/-- The right-justified `"%6.2f"` rendering of the percentage
(`std::fixed << std::setprecision(2) << std::setw(6)`): the hundredths
count is `⌊p * 100 + 1/2⌋ = (200 * p.num + p.den) / (2 * p.den)`, written
in integer arithmetic on the rational's numerator and denominator; ties
round half-up (IEEE printf may differ on exact decimal ties, which no
claim exercises). -/
def _PercentBytes (p : ℚ) : List Nat :=
  let n : Nat := ((200 * p.num + (p.den : Int)) / (2 * (p.den : Int))).toNat
  let fr := n % 100
  let sBytes :=
    natToBytes (n / 100) ++ [46] ++
      (if fr < 10 then [48] else []) ++ natToBytes fr
  List.replicate (6 - sBytes.length) 32 ++ sBytes

/-- `fill = std::floor(percent * bar_width / 100.0)` as an `unsigned int`,
written in integer arithmetic on the rational's numerator and denominator
(`Int` division is floor division for the positive denominator); the
lemma `_BarFill_eq_floor` below shows this equals
`⌊percent * bar_width / 100⌋`. -/
def _BarFill (percent : ℚ) (bar_width : Nat) : Nat :=
  ((percent.num * (bar_width : Int)) / ((percent.den : Int) * 100)).toNat

/-- The cells between the brackets: `fill` filled cells (`'#'` = 35), then
— if any space remains — one spinner glyph and blank padding. -/
def _BarInterior (percent : ℚ) (bar_width : Nat) (spin_char : Nat) :
    List Nat :=
  List.replicate (_BarFill percent bar_width) 35 ++
    (if 0 < bar_width - _BarFill percent bar_width then
        spin_char ::
          List.replicate (bar_width - _BarFill percent bar_width - 1) 32
      else List.replicate (bar_width - _BarFill percent bar_width) 32)

/-- The full status line assembled by the `ostringstream` block:
`prefix ++ "[" ++ interior ++ "] " ++ percentage ++ postfix`. -/
def _StatusbarLine (percent : ℚ) (bar_width : Nat) (pre post : List Nat)
    (spin_char : Nat) : List Nat :=
  pre ++ [91] ++ _BarInterior percent bar_width spin_char ++ [93, 32] ++
    _PercentBytes percent ++ post

/-- Outcome of one `_DrawStatusbarComponent` call: status code, the new
value of the by-reference `spinner_idx`, and the bytes written to the sink
(`none` when the early-out paths skip the write). -/
structure DrawData where
  err : Int
  spin : Nat
  written : Option (List Nat)
  deriving Repr, DecidableEq

/-- `_DrawStatusbarComponent` (`statusbarlog.cc`). `tty` is the result of
`sink::SinkIsTty` for the sink in use; the cursor moves are pure output and
not tracked. Note the code's `-5` is both "invalid percentage" and "width
detection failed and truncation was needed". -/
def _DrawStatusbarComponent (env : Env) (ownsLock tty : Bool) (percent : ℚ)
    (bar_width : Nat) (pre post : List Nat) (spinner_idx : Nat) : DrawData :=
  if ¬ ownsLock then ⟨-7, spinner_idx, none⟩
  else if percent > 100 ∨ percent < 0 then ⟨-5, spinner_idx, none⟩
  else
    let spin2 := spinner_idx % 4
    let spin_char := spinner.getD spin2 0
    let status_str := _StatusbarLine percent bar_width pre post spin_char
    let wq := if tty then _GetTerminalWidth env else (kStatusbarLogSuccess, intMax)
    if status_str.length > wq.2 then
      ⟨if wq.1 = 0 then -3 else if wq.1 = -1 then -4
        else if wq.1 = -2 then -5 else wq.1,
       spin2, some (status_str.take (wq.2 - 1))⟩
    else ⟨wq.1, spin2, some status_str⟩

/-- `LogV`'s classification of `_DrawStatusbarComponent` status codes: only
`-3` (truncation) is non-critical; every other nonzero code is critical. -/
def _logErrIsCritical (e : Int) : Bool := e ≠ -3

/-! ## Statusbar registry and facade (`statusbarlog.cc`) -/

/-- ASCII bytes of a string literal. -/
def strBytes (s : String) : List Nat := s.data.map Char.toNat

/-- The `resize(maxLen - 3); += "..."` length cap applied to prefixes,
postfixes and the log filename. -/
def _capBytes (maxLen : Nat) (s : List Nat) : List Nat :=
  if s.length > maxLen then s.take (maxLen - 3) ++ [46, 46, 46] else s

/-- Result triple of a statusbar registry operation: status code, new
registry state, the caller's handle after the call. -/
structure SbOpResult where
  status : Int
  st : SbState
  h : StatusbarHandle
  deriving Repr, DecidableEq

/-- The `Statusbar` record stored by `CreateStatusbarHandle`: percentages
and spinner indices initialized to zero, prefixes/postfixes length-capped
then sanitized, bar widths capped at `kMaxBarWidth`; the post-store draw
loop reduces each (zero) spinner index modulo 4. -/
def _newStatusbar (cfg : Config) (sink_h : SinkHandle)
    (_positions _bar_sizes : List Nat) (_prefixes _postfixes : List (List Nat))
    (newId : Nat) : Statusbar :=
  { sink_handle := sink_h
    percentages := List.replicate _positions.length 0
    positions := _positions
    bar_sizes := _bar_sizes.map (fun b => min b cfg.kMaxBarWidth)
    prefixes := _prefixes.map
      (fun p => _SanitizeString (_capBytes cfg.kMaxPrefixLength p))
    postfixes := _postfixes.map
      (fun p => _SanitizeString (_capBytes cfg.kMaxPostfixLength p))
    spin_idxs := (List.replicate _positions.length 0).map (· % 4)
    id := newId
    error_reported := false }

/-- `CreateStatusbarHandle` (`statusbarlog.cc`). Validates the sink and the
(required-invalid) statusbar handle, checks the parallel-array sizes and
the capacity, bumps the id counter, sanitizes and caps prefixes/postfixes,
caps bar widths, and fills the most recently freed slot (LIFO) or appends;
finally every bar is drawn once at percentage 0 (which reduces each spinner
index modulo 4 through the by-reference `spinner_idx`). -/
def CreateStatusbarHandle (cfg : Config) (ss : SinkState) (st : SbState)
    (h : StatusbarHandle) (sink_h : SinkHandle)
    (_positions _bar_sizes : List Nat)
    (_prefixes _postfixes : List (List Nat)) :
    Except String SbOpResult := do
  let errS ← IsValidSinkHandle ss sink_h
  if errS ≠ 0 then return ⟨-1, st, h⟩
  if _IsValidStatusbarHandle st h = 0 then return ⟨-2, st, h⟩
  let h := { h with valid := false, id := 0 }
  if _positions.length ≠ _bar_sizes.length ∨
      _bar_sizes.length ≠ _prefixes.length ∨
      _prefixes.length ≠ _postfixes.length then
    return ⟨-3, st, h⟩
  if usizeSub st.registry.length st.free.length ≥ cfg.kMaxStatusbarHandles then
    return ⟨-4, st, h⟩
  let errM ← IsValidSinkHandleVerbose ss sink_h
  if errM ≠ 0 then return ⟨-5, st, h⟩
  let newId := _bumpId st.idCount
  let sb : Statusbar :=
    _newStatusbar cfg sink_h _positions _bar_sizes _prefixes _postfixes newId
  match st.free with
  | fh :: rest =>
      let h := { h with idx := fh.idx, id := newId, valid := true }
      return ⟨0, ⟨st.registry.set fh.idx sb, rest, newId⟩, h⟩
  | [] =>
      let h := { h with idx := st.registry.length, id := newId, valid := true }
      return ⟨0, ⟨st.registry ++ [sb], [], newId⟩, h⟩

/-- The cleared slot payload left behind by `DestroyStatusbarHandle`: all
vectors emptied, the sink handle value-initialized, the id zeroed;
`error_reported` is *not* cleared by the C++ code. -/
def _clearedStatusbar (er : Bool) : Statusbar :=
  { sink_handle := default
    percentages := []
    positions := []
    bar_sizes := []
    prefixes := []
    postfixes := []
    spin_idxs := []
    id := 0
    error_reported := er }

/-- `DestroyStatusbarHandle` (`statusbarlog.cc`). Validates, clears the
slot's payload (leaving `error_reported` as is), zeroes the slot id,
invalidates the caller's handle and pushes it onto the free list. -/
def DestroyStatusbarHandle (ss : SinkState) (st : SbState)
    (h : StatusbarHandle) : Except String SbOpResult := do
  let err := _IsValidStatusbarHandle st h
  if err ≠ 0 then return ⟨err, st, h⟩
  match st.registry.get? h.idx with
  | some target =>
      let errS ← IsValidSinkHandle ss target.sink_handle
      if errS ≠ 0 then return ⟨-5, st, h⟩
      let errM ← IsValidSinkHandleVerbose ss target.sink_handle
      if errM ≠ 0 then return ⟨-6, st, h⟩
      let cleared : Statusbar := _clearedStatusbar target.error_reported
      let h' := { h with valid := false, id := 0 }
      return ⟨0, ⟨st.registry.set h.idx cleared, h' :: st.free, st.idCount⟩, h'⟩
  | none => .error "unreachable: validated statusbar slot missing"

/-! ## `LogV` -/

/-- The `switch (log_level)` prefix selection; the `default` branch leaves
the empty prefix. -/
def _logPrefix : LogLevel → List Nat
  | .kLogLevelErr => strBytes "ERROR"
  | .kLogLevelWrn => strBytes "WARNING"
  | .kLogLevelInf => strBytes "INFO"
  | .kLogLevelDbg => strBytes "DEBUG"
  | _ => []

/-- The cursor move computed by `LogV`: the running maximum of
`positions[j]` over *every* statusbar in the registry (0 when there are
none). -/
def _logMove (reg : List Statusbar) : Int :=
  reg.foldl
    (fun (m : Int) (sb : Statusbar) =>
      sb.positions.foldl
        (fun (m2 : Int) (p : Nat) =>
          if (p : Int) > m2 then (p : Int) else m2) m)
    0

/-- The log line assembled by `LogV`:
`prefix ++ " [" ++ sanitized,capped filename ++ "]: " ++ capped,sanitized
message ++ "\n"`. The message is truncated (`vsnprintf` into a
`min(size, kMaxLogLength)`-sized buffer) before sanitization; the filename
is sanitized before the length cap. -/
def _logLine (cfg : Config) (level : LogLevel) (filename message : List Nat) :
    List Nat :=
  let msg := _SanitizeStringWithNewline
    (message.take (min message.length cfg.kMaxLogLength))
  let fn := _capBytes cfg.kMaxFilenameLength
    (_SanitizeStringWithNewline filename)
  _logPrefix level ++ [32, 91] ++ fn ++ [93, 58, 32] ++ msg ++ [10]

/-- The one-bar redraw step of `LogV`'s loop body: the
`_DrawStatusbarComponent` call for bar `j` of statusbar `sb`. -/
def _redrawDraw (env : Env) (tty : Bool) (sb : Statusbar) (j : Nat) :
    DrawData :=
  _DrawStatusbarComponent env true tty (sb.percentages.getD j 0)
    (sb.bar_sizes.getD j 0) (sb.prefixes.getD j []) (sb.postfixes.getD j [])
    (sb.spin_idxs.getD j 0)

/-- Store back the spinner index reduced by the draw (the by-reference
`spin_idxs[j] %= 4`). -/
def _redrawStore (env : Env) (tty : Bool) (sb : Statusbar) (j : Nat) :
    Statusbar :=
  { sb with spin_idxs := sb.spin_idxs.set j (_redrawDraw env tty sb j).spin }

/-- Inner redraw loop of `LogV` over the bars of one statusbar: draws each
bar, stores the reduced spinner index, and on the first *critical* draw
error with the `error_reported` latch clear sets the latch and aborts with
`err - 5`. Returns (abort code?, updated statusbar, bar indices drawn). -/
def _redrawOneAux (env : Env) (tty : Bool) :
    List Nat → Statusbar → Option Int × Statusbar × List Nat
  | [], sb => (none, sb, [])
  | j :: js, sb =>
      if (_redrawDraw env tty sb j).err ≠ 0 ∧ sb.error_reported = false ∧
          _logErrIsCritical (_redrawDraw env tty sb j).err then
        (some ((_redrawDraw env tty sb j).err - 5),
          { _redrawStore env tty sb j with error_reported := true }, [j])
      else
        ((_redrawOneAux env tty js (_redrawStore env tty sb j)).1,
          (_redrawOneAux env tty js (_redrawStore env tty sb j)).2.1,
          j :: (_redrawOneAux env tty js (_redrawStore env tty sb j)).2.2)

/-- Outer redraw loop of `LogV` over *every* statusbar in the registry
(regardless of which sink each statusbar is bound to), `i` being the
registry index of the first statusbar in the list. Returns (abort code?,
updated registry, `(statusbar, bar)` index pairs drawn). -/
def _redrawAllAux (env : Env) (tty : Bool) (i : Nat) :
    List Statusbar → Option Int × List Statusbar × List (Nat × Nat)
  | [] => (none, [], [])
  | sb :: rest =>
      match (_redrawOneAux env tty (List.range sb.positions.length) sb).1 with
      | some e =>
          (some e,
            (_redrawOneAux env tty (List.range sb.positions.length) sb).2.1 ::
              rest,
            (_redrawOneAux env tty
              (List.range sb.positions.length) sb).2.2.map (fun j => (i, j)))
      | none =>
          ((_redrawAllAux env tty (i + 1) rest).1,
            (_redrawOneAux env tty (List.range sb.positions.length) sb).2.1 ::
              (_redrawAllAux env tty (i + 1) rest).2.1,
            (_redrawOneAux env tty
                (List.range sb.positions.length) sb).2.2.map (fun j => (i, j))
              ++ (_redrawAllAux env tty (i + 1) rest).2.2)

/-- Outcome of `LogV`: status, new statusbar registry state, the log line
written to the sink (`none` when gated or refused), the cursor move, and
the `(statusbar, bar)` pairs redrawn. -/
structure LogResult where
  status : Int
  st : SbState
  line : Option (List Nat)
  move : Int
  redrawn : List (Nat × Nat)
  deriving Repr, DecidableEq

/-- `LogV` (`statusbarlog.cc`): level gate, sink validation
(`get_mutex_ptr`), cursor move over all registered bars, one formatted log
line, then a redraw of every registered statusbar through the *given* sink,
escalating the first critical draw error (latch clear) into the return
value as `err - 5`. -/
def LogV (cfg : Config) (env : Env) (ss : SinkState) (st : SbState)
    (level : LogLevel) (filename message : List Nat) (sink_h : SinkHandle) :
    Except String LogResult := do
  if level.toNat > cfg.kLogLevel then return ⟨0, st, none, 0, []⟩
  let e ← IsValidSinkHandleVerbose ss sink_h
  if e ≠ 0 then return ⟨e, st, none, 0, []⟩
  let mv := _logMove st.registry
  let line := _logLine cfg level filename message
  let tty ← SinkIsTty env ss sink_h
  let r := _redrawAllAux env tty 0 st.registry
  match r.1 with
  | some errv =>
      return ⟨errv, ⟨r.2.1, st.free, st.idCount⟩, some line, mv, r.2.2⟩
  | none => return ⟨0, ⟨r.2.1, st.free, st.idCount⟩, some line, mv, r.2.2⟩

/-! ## `UpdateStatusbar` (`statusbarlog.cc`) -/

/-- `kFilename` of `statusbarlog.cc` as bytes. -/
def kFilenameBytes : List Nat := strBytes "statusbarlog.cc"

/-- State effect of one `LogErr`/`LogWrn` wrapper call. The wrappers
themselves live in the generated header missing from the snapshot;
modelled from the spec: each wrapper forwards to `LogV` at its level and
discards the status (spec §4.3/§5), so its effect on the statusbar
registry is `LogV`'s. The filename/message bytes shape only the emitted
line, never the registry, so representative literals suffice. -/
def _logEffect (cfg : Config) (env : Env) (ss : SinkState) (st : SbState)
    (level : LogLevel) (filename message : List Nat) (sink_h : SinkHandle) :
    Except String SbState := do
  let r ← LogV cfg env ss st level filename message sink_h
  return r.st

/-- Outcome of `UpdateStatusbar`: status, new statusbar registry state, and
whether this call emitted the one-shot draw-failure report. -/
structure UpdateResult where
  status : Int
  st : SbState
  reported : Bool
  deriving Repr, DecidableEq

/-- `UpdateStatusbar` (`statusbarlog.cc`). Note the order faithfully kept
from the source: the statusbar registry slot is read at `handle.idx` (to
fetch the sink handle) *before* `_IsValidStatusbarHandle` runs, so an
out-of-range index is an out-of-bounds `std::vector` access (`.error`),
not a status code. The invalid-sink path prints to `std::cout` directly
(no state effect); every later failure path calls `LogErr` — and the
invalid-handle path first `_IsValidStatusbarHandleVerbose`, whose `LogWrn`
is one more `LogV` call — so those paths carry `LogV`'s redraw effect on
the registry (`_logEffect`). -/
def UpdateStatusbar (cfg : Config) (env : Env) (ss : SinkState)
    (st : SbState) (h : StatusbarHandle) (idx : Nat) (percent : ℚ) :
    Except String UpdateResult := do
  match st.registry.get? h.idx with
  | none => .error "out-of-bounds statusbar registry access in UpdateStatusbar"
  | some sb =>
      let sink_h := sb.sink_handle
      let errS ← IsValidSinkHandle ss sink_h
      if errS ≠ 0 then return ⟨-1, st, false⟩
      let errM ← IsValidSinkHandleVerbose ss sink_h
      if errM ≠ 0 then
        let st2 ← _logEffect cfg env ss st .kLogLevelErr kFilenameBytes
          (strBytes "Failed to update statusbar! Failed to get sink mutex ptr.")
          sink_h
        return ⟨-2, st2, false⟩
      let err := _IsValidStatusbarHandle st h
      if err ≠ 0 then
        let st2 ← _logEffect cfg env ss st .kLogLevelWrn kFilenameBytes
          (strBytes "Invalid handle") sink_h
        let st3 ← _logEffect cfg env ss st2 .kLogLevelErr kFilenameBytes
          (strBytes "Failed to update statusbar: Invalid handle.") sink_h
        return ⟨err - 2, st3, false⟩
      if percent > 100 ∨ percent < 0 then
        let st2 ← _logEffect cfg env ss st .kLogLevelErr kFilenameBytes
          (strBytes "Failed to update statusbar: Invalid percentage.") sink_h
        return ⟨-7, st2, false⟩
      if idx ≥ sb.percentages.length then
        let st2 ← _logEffect cfg env ss st .kLogLevelErr kFilenameBytes
          (strBytes "Failed to update statusbar: Invalid bar index.") sink_h
        return ⟨-8, st2, false⟩
      let spin1 := sb.spin_idxs.getD idx 0 + 1
      let tty ← SinkIsTty env ss sink_h
      let d := _DrawStatusbarComponent env true tty percent
        (sb.bar_sizes.getD idx 0) (sb.prefixes.getD idx [])
        (sb.postfixes.getD idx []) spin1
      let sb' := { sb with percentages := sb.percentages.set idx percent
                           spin_idxs := sb.spin_idxs.set idx d.spin }
      if d.err ≠ 0 ∧ sb.error_reported = false then
        let sb2 := { sb' with error_reported := true }
        let st2 ← _logEffect cfg env ss
          { st with registry := st.registry.set h.idx sb2 } .kLogLevelErr
          kFilenameBytes
          (strBytes "draw failure on statusbar") sink_h
        return ⟨0, st2, true⟩
      return ⟨0, { st with registry := st.registry.set h.idx sb' }, false⟩

/-- All `(statusbar, bar)` index pairs of the registry from index `i` on,
in iteration order. -/
def _allBarPairsFrom (i : Nat) : List Statusbar → List (Nat × Nat)
  | [] => []
  | sb :: rest =>
      (List.range sb.positions.length).map (fun j => (i, j)) ++
        _allBarPairsFrom (i + 1) rest

/-- All `(statusbar, bar)` index pairs of the registry, in iteration
order. -/
def _allBarPairs (reg : List Statusbar) : List (Nat × Nat) :=
  _allBarPairsFrom 0 reg

/-- Following the spec's words (§4.3): the cursor move is the maximum
`screen_row` across the bars *bound to the given sink* (0 if none). Used
only to compare the spec against `_logMove`. -/
def _logMoveSpec (sink_h : SinkHandle) (reg : List Statusbar) : Int :=
  (reg.filter (fun sb => decide (sb.sink_handle = sink_h))).foldl
    (fun (m : Int) (sb : Statusbar) =>
      sb.positions.foldl
        (fun (m2 : Int) (p : Nat) =>
          if (p : Int) > m2 then (p : Int) else m2) m)
    0

/-- Following the spec's words (§4.3): the bars redrawn by a log call are
exactly the bars of the statusbars *attached to the given sink*. Used only
to compare the spec against `LogV`'s redraw set. -/
def _redrawSpecPairsFrom (sink_h : SinkHandle) (i : Nat) :
    List Statusbar → List (Nat × Nat)
  | [] => []
  | sb :: rest =>
      (if sb.sink_handle = sink_h then
          (List.range sb.positions.length).map (fun j => (i, j))
        else []) ++
        _redrawSpecPairsFrom sink_h (i + 1) rest

/-- Following the spec's words (§4.3): the bars redrawn by a log call are
exactly the bars of the statusbars *attached to the given sink*. -/
def _redrawSpecPairs (sink_h : SinkHandle) (reg : List Statusbar) :
    List (Nat × Nat) :=
  _redrawSpecPairsFrom sink_h 0 reg

/-! ## Operation sequences (used for the lifecycle and capacity claims) -/

/-- One public statusbar-registry operation, with the caller-supplied
arguments. Used to quantify over arbitrary call sequences. -/
inductive SbOp where
  | createOp (h : StatusbarHandle) (sink_h : SinkHandle)
      (pos sizes : List Nat) (pres posts : List (List Nat))
  | destroyOp (h : StatusbarHandle)
  | updateOp (env : Env) (h : StatusbarHandle) (idx : Nat) (p : ℚ)
  | logOp (env : Env) (level : LogLevel) (fn msg : List Nat)
      (sink_h : SinkHandle)

/-- The statusbar-registry state after one public operation (a crashing
execution leaves the state unchanged here; crashes are ruled out
separately). -/
def applySbOp (cfg : Config) (ss : SinkState) (st : SbState) :
    SbOp → SbState
  | .createOp h sink_h pos sizes pres posts =>
      match CreateStatusbarHandle cfg ss st h sink_h pos sizes pres posts with
      | .ok r => r.st
      | .error _ => st
  | .destroyOp h =>
      match DestroyStatusbarHandle ss st h with
      | .ok r => r.st
      | .error _ => st
  | .updateOp env h idx p =>
      match UpdateStatusbar cfg env ss st h idx p with
      | .ok r => r.st
      | .error _ => st
  | .logOp env level fn msg sink_h =>
      match LogV cfg env ss st level fn msg sink_h with
      | .ok r => r.st
      | .error _ => st

/-- The statusbar-registry state after a sequence of public operations. -/
def applySbOps (cfg : Config) (ss : SinkState) (st : SbState) :
    List SbOp → SbState
  | [] => st
  | op :: ops => applySbOps cfg ss (applySbOp cfg ss st op) ops

/-- Invariant used for the "stale handle stays invalid forever" claim:
`A` bounds the ids issued up to the handle's destruction; the slot the
handle pointed to either is cleared (id 0) or has been re-issued with an
id strictly above `A`. -/
def SlotAvoids (st : SbState) (H : StatusbarHandle) (A : Nat) : Prop :=
  A ≤ st.idCount ∧ H.idx < st.registry.length ∧
    ∀ sb : Statusbar, st.registry.get? H.idx = some sb →
      sb.id = 0 ∨ A < sb.id

/-- Per-slot relation between a statusbar and its image under `LogV`'s
redraw loop: every payload field is kept, the `error_reported` latch can
only be set (never cleared), and each spinner phase is either untouched or
reduced modulo 4 (the loop's by-reference `spin_idxs[j] %= 4`). -/
def _SlotRedrawDiff (sb1 sb2 : Statusbar) : Prop :=
  sb2.sink_handle = sb1.sink_handle ∧ sb2.id = sb1.id ∧
  sb2.percentages = sb1.percentages ∧ sb2.positions = sb1.positions ∧
  sb2.bar_sizes = sb1.bar_sizes ∧ sb2.prefixes = sb1.prefixes ∧
  sb2.postfixes = sb1.postfixes ∧
  (sb1.error_reported = true → sb2.error_reported = true) ∧
  ∀ j : Nat, sb2.spin_idxs.get? j = sb1.spin_idxs.get? j ∨
    sb2.spin_idxs.get? j = (sb1.spin_idxs.get? j).map (· % 4)

/-- Registry-level version of `_SlotRedrawDiff`: the state differs from
the original at most by what one embedded log call's redraw can do — the
free list, id counter, registry length and every slot's payload are kept;
only spinner phases (mod 4) and `error_reported` latches can move. -/
def _RedrawOnlyDiff (st st2 : SbState) : Prop :=
  st2.free = st.free ∧ st2.idCount = st.idCount ∧
  st2.registry.length = st.registry.length ∧
  ∀ (k : Nat) (sb2 : Statusbar), st2.registry.get? k = some sb2 →
    ∃ sb1, st.registry.get? k = some sb1 ∧ _SlotRedrawDiff sb1 sb2

/-- The coarser invariant needed for handle validity: two states with the
same free list, id counter, registry length and slot ids. -/
def _SameIds (st st2 : SbState) : Prop :=
  st2.free = st.free ∧ st2.idCount = st.idCount ∧
  st2.registry.length = st.registry.length ∧
  ∀ k : Nat, (st2.registry.get? k).map Statusbar.id =
    (st.registry.get? k).map Statusbar.id

/-- `n` successive `CreateStatusbarHandle` calls (one one-bar statusbar
each, fresh default handle every time) starting from the empty registry. -/
def sbCreateIter (cfg : Config) (ss : SinkState) (sink_h : SinkHandle) :
    Nat → SbState
  | 0 => SbState.initial
  | n + 1 =>
      match CreateStatusbarHandle cfg ss (sbCreateIter cfg ss sink_h n)
          default sink_h [1] [10] [[]] [[]] with
      | .ok r => r.st
      | .error _ => sbCreateIter cfg ss sink_h n

/-- `n` successive `CreateSinkStdout` calls (fresh default handle every
time) starting from the empty sink registry. -/
def sinkCreateIter : Nat → SinkState
  | 0 => SinkState.initial
  | n + 1 =>
      match CreateSinkStdout (sinkCreateIter n) default with
      | .ok r => r.ss
      | .error _ => sinkCreateIter n

/-! ## Concrete fixtures used by witnesses and counterexamples -/

/-- A configuration instance (the concrete values are irrelevant to the
claims; they are only used to instantiate witnesses). -/
def cfgW : Config := ⟨8, 100, 50, 60, 60, 50, 4⟩

/-- An environment for a non-interactive sink. -/
def envW : Env := ⟨false, some 80, false⟩

/-- A sink registry holding two distinct valid stdout sinks. -/
def ssTwo : SinkState :=
  ⟨[some ⟨true, true, false, [], .kSinkStdout, 1, 1⟩,
    some ⟨true, true, false, [], .kSinkStdout, 1, 2⟩], [], 2⟩

/-- Handle to the first sink of `ssTwo`. -/
def hSinkA : SinkHandle := ⟨0, 1, true⟩

/-- Handle to the second sink of `ssTwo`. -/
def hSinkB : SinkHandle := ⟨1, 2, true⟩

/-- A statusbar with one bar at row 1, bound to `hSinkA`. -/
def sbOnA : Statusbar := ⟨hSinkA, [0], [1], [10], [[]], [[]], [0], 1, false⟩

/-- A statusbar with one bar at row 5, bound to `hSinkB`. -/
def sbOnB : Statusbar := ⟨hSinkB, [0], [5], [10], [[]], [[]], [0], 2, false⟩

/-- A statusbar registry with one statusbar on each of the two sinks. -/
def stTwo : SbState := ⟨[sbOnA, sbOnB], [], 2⟩

/-- A sink registry holding one valid owned-file sink. -/
def ssFile : SinkState :=
  ⟨[some ⟨true, true, true, strBytes "log.txt", .kSinkFileOwned, -1, 1⟩],
    [], 1⟩

/-- Handle to the file sink of `ssFile`. -/
def hSinkFile : SinkHandle := ⟨0, 1, true⟩

/-- An environment in which closing an owned file fails. -/
def envCloseFail : Env := ⟨false, some 80, true⟩

/-- An interactive-terminal environment whose width query fails: every
draw through a tty sink reports the fatal-class `-2`. -/
def envTty : Env := ⟨true, none, false⟩

/-- The sink stored in slot 0 of `ssTwo`. -/
def sink0 : Sink := ⟨true, true, false, [], .kSinkStdout, 1, 1⟩

/-- The statusbar registry left behind by destroying `stTwo`'s first
statusbar (handle `⟨0, 1, true⟩`). -/
def stAfterDestroy : SbState :=
  ⟨[_clearedStatusbar false, sbOnB], [⟨0, 0, false⟩], 2⟩

/-- A one-operation follow-up sequence (a fresh creation) used to
instantiate the "stale handle stays invalid forever" statement. -/
def opsW : List SbOp := [.createOp ⟨0, 0, false⟩ hSinkA [1] [10] [[]] [[]]]

/-- The result of the successful `DestroySinkHandle` on `ssFile`. -/
def rFileDestroyed : SinkOpResult :=
  ⟨0,
    ⟨[some ⟨false, true, false, strBytes "log.txt", .kSinkInvalid, -1, 0⟩],
      [⟨0, 0, false⟩], 1⟩,
    ⟨0, 0, false⟩⟩

/-! ## Theorems -/

lemma sanitizeWithNewline_append (a b : List Nat) :
    _SanitizeStringWithNewline (a ++ b) =
      _SanitizeStringWithNewline a ++ _SanitizeStringWithNewline b := by
  induction a with
  | nil => rfl
  | cons c rest ih =>
      simp only [List.cons_append, _SanitizeStringWithNewline, List.append_eq,
        ih, List.append_assoc]

lemma sanitize_append (a b : List Nat) :
    _SanitizeString (a ++ b) = _SanitizeString a ++ _SanitizeString b := by
  induction a with
  | nil => rfl
  | cons c rest ih =>
      simp only [List.cons_append, _SanitizeString, List.append_eq, ih,
        List.append_assoc]

/-- Sanitizing a single byte that survived `_SanitizeStringWithNewline`
leaves it unchanged. -/
lemma sanitizeWithNewline_byte_stable (c : Nat) :
    _SanitizeStringWithNewline
        (if c = 10 ∨ c = 9 ∨ (32 ≤ c ∧ c ≤ 126) then [c]
         else if c < 32 ∨ c = 127 then replacementBytes
         else [c]) =
      (if c = 10 ∨ c = 9 ∨ (32 ≤ c ∧ c ≤ 126) then [c]
       else if c < 32 ∨ c = 127 then replacementBytes
       else [c]) := by
  by_cases h1 : c = 10 ∨ c = 9 ∨ (32 ≤ c ∧ c ≤ 126)
  · simp only [h1, if_pos, _SanitizeStringWithNewline, List.append_nil]
  · by_cases h2 : c < 32 ∨ c = 127
    · simp only [h1, h2, if_neg, if_pos, not_false_iff]
      decide
    · simp only [h1, h2, if_neg, not_false_iff, _SanitizeStringWithNewline,
        List.append_nil]

lemma sanitize_byte_stable (c : Nat) :
    _SanitizeString
        (if c = 9 ∨ (32 ≤ c ∧ c ≤ 126) then [c]
         else if c < 32 ∨ c = 127 then replacementBytes
         else [c]) =
      (if c = 9 ∨ (32 ≤ c ∧ c ≤ 126) then [c]
       else if c < 32 ∨ c = 127 then replacementBytes
       else [c]) := by
  by_cases h1 : c = 9 ∨ (32 ≤ c ∧ c ≤ 126)
  · simp only [h1, if_pos, _SanitizeString, List.append_nil]
  · by_cases h2 : c < 32 ∨ c = 127
    · simp only [h1, h2, if_neg, if_pos, not_false_iff]
      decide
    · simp only [h1, h2, if_neg, not_false_iff, _SanitizeString,
        List.append_nil]

lemma sanitizeWithNewline_idem (s : List Nat) :
    _SanitizeStringWithNewline (_SanitizeStringWithNewline s) =
      _SanitizeStringWithNewline s := by
  induction s with
  | nil => rfl
  | cons c rest ih =>
      show _SanitizeStringWithNewline ((if _ then _ else _) ++ _) = _
      rw [sanitizeWithNewline_append, ih, sanitizeWithNewline_byte_stable]
      rfl

lemma sanitize_idem (s : List Nat) :
    _SanitizeString (_SanitizeString s) = _SanitizeString s := by
  induction s with
  | nil => rfl
  | cons c rest ih =>
      show _SanitizeString ((if _ then _ else _) ++ _) = _
      rw [sanitize_append, ih, sanitize_byte_stable]
      rfl

/-- **C8.** Both sanitizers are idempotent; NUL (0) and the control byte
0x01 are replaced by the `U+FFFD` marker by both; tab (9) is preserved by
both; newline (10) is preserved only by the newline-preserving variant —
the plain `_SanitizeString` replaces it. -/
theorem sanitizers_idempotent_and_control_byte_handling :
    (∀ s : List Nat,
        _SanitizeStringWithNewline (_SanitizeStringWithNewline s) =
          _SanitizeStringWithNewline s) ∧
    (∀ s : List Nat, _SanitizeString (_SanitizeString s) = _SanitizeString s) ∧
    _SanitizeStringWithNewline [0] = replacementBytes ∧
    _SanitizeString [0] = replacementBytes ∧
    _SanitizeStringWithNewline [1] = replacementBytes ∧
    _SanitizeString [1] = replacementBytes ∧
    _SanitizeStringWithNewline [9] = [9] ∧
    _SanitizeString [9] = [9] ∧
    _SanitizeStringWithNewline [10] = [10] ∧
    _SanitizeString [10] = replacementBytes := by
  refine ⟨sanitizeWithNewline_idem, sanitize_idem, ?_, ?_, ?_, ?_, ?_, ?_, ?_, ?_⟩
  all_goals decide

/-- In-range helper for the statusbar handle check: the five verdicts
against a known slot payload. -/
lemma validate_sb_cases (st : SbState) (h : StatusbarHandle) (sb : Statusbar)
    (hlen : st.registry.length ≤ sizeMax)
    (hslot : st.registry.get? h.idx = some sb) :
    (_IsValidStatusbarHandle st h = 0 ↔
      h.valid = true ∧ h.idx < st.registry.length ∧ h.id = sb.id ∧ h.id ≠ 0) ∧
    (_IsValidStatusbarHandle st h = -1 ↔ h.valid = false) ∧
    (_IsValidStatusbarHandle st h = -2 ↔
      h.valid = true ∧ ¬ h.idx < st.registry.length) ∧
    (_IsValidStatusbarHandle st h = -3 ↔
      h.valid = true ∧ h.idx < st.registry.length ∧ h.id ≠ sb.id) ∧
    (_IsValidStatusbarHandle st h = -4 ↔
      h.valid = true ∧ h.idx < st.registry.length ∧ h.id = sb.id ∧
        h.id = 0 ∧ sb.id = 0) := by
  have hidx : h.idx < st.registry.length := (List.get?_eq_some.mp hslot).1
  have hne : h.idx ≠ sizeMax := by
    unfold sizeMax at *; omega
  have hcond : ¬ (h.idx ≥ st.registry.length ∨ h.idx = sizeMax) := by
    rintro (hge | heq)
    · omega
    · exact hne heq
  unfold _IsValidStatusbarHandle
  simp only [hslot]
  rw [if_neg hcond]
  by_cases hv : h.valid = false
  · rw [if_pos hv]
    refine ⟨?_, ?_, ?_, ?_, ?_⟩ <;> simp [hv]
  · rw [if_neg hv]
    have hv' : h.valid = true := by
      revert hv; cases h.valid <;> simp
    split_ifs with h1 h2
    · refine ⟨?_, ?_, ?_, ?_, ?_⟩ <;> simp [hv', h1, hidx]
    · refine ⟨?_, ?_, ?_, ?_, ?_⟩ <;>
        simp [hv', h2, hidx, not_not.mp h1, (not_not.mp h1).symm.trans h2]
    · refine ⟨?_, ?_, ?_, ?_, ?_⟩ <;> simp [hv', h2, hidx, not_not.mp h1] <;>
        exact fun e => h2 ((not_not.mp h1).trans e)

lemma validate_sink_cases (ss : SinkState) (hs : SinkHandle) (s : Sink)
    (hslen : ss.registry.length ≤ sizeMax)
    (hsslot : ss.registry.get? hs.idx = some (some s)) :
    (IsValidSinkHandle ss hs = .ok 0 ↔
      hs.valid = true ∧ hs.idx < ss.registry.length ∧ hs.id = s.id ∧
        hs.id ≠ 0) ∧
    (IsValidSinkHandle ss hs = .ok (-1) ↔ hs.valid = false) ∧
    (IsValidSinkHandle ss hs = .ok (-2) ↔
      hs.valid = true ∧ ¬ hs.idx < ss.registry.length) ∧
    (IsValidSinkHandle ss hs = .ok (-3) ↔
      hs.valid = true ∧ hs.idx < ss.registry.length ∧ hs.id ≠ s.id) ∧
    (IsValidSinkHandle ss hs = .ok (-4) ↔
      hs.valid = true ∧ hs.idx < ss.registry.length ∧ hs.id = s.id ∧
        hs.id = 0 ∧ s.id = 0) := by
  have hidx : hs.idx < ss.registry.length := (List.get?_eq_some.mp hsslot).1
  have hne : hs.idx ≠ sizeMax := by
    unfold sizeMax at *; omega
  have hcond : ¬ (hs.idx ≥ ss.registry.length ∨ hs.idx = sizeMax) := by
    rintro (hge | heq)
    · omega
    · exact hne heq
  unfold IsValidSinkHandle
  simp only [hsslot]
  rw [if_neg hcond]
  by_cases hv : hs.valid = false
  · rw [if_pos hv]
    refine ⟨?_, ?_, ?_, ?_, ?_⟩ <;> simp [hv]
  · rw [if_neg hv]
    have hv' : hs.valid = true := by
      revert hv; cases hs.valid <;> simp
    split_ifs with h1 h2
    · refine ⟨?_, ?_, ?_, ?_, ?_⟩ <;> simp [hv', h1, hidx]
    · refine ⟨?_, ?_, ?_, ?_, ?_⟩ <;>
        simp [hv', h2, hidx, not_not.mp h1, (not_not.mp h1).symm.trans h2]
    · refine ⟨?_, ?_, ?_, ?_, ?_⟩ <;> simp [hv', h2, hidx, not_not.mp h1] <;>
        exact fun e => h2 ((not_not.mp h1).trans e)

/-- The statusbar handle verdicts for an *arbitrary* handle, including one
whose index is out of range: no slot-existence hypothesis. -/
lemma validate_sb_general (st : SbState) (h : StatusbarHandle)
    (hlen : st.registry.length ≤ sizeMax) :
    (_IsValidStatusbarHandle st h = 0 ↔
      h.valid = true ∧ h.idx < st.registry.length ∧
      (∃ sb, st.registry.get? h.idx = some sb ∧ h.id = sb.id) ∧ h.id ≠ 0) ∧
    (_IsValidStatusbarHandle st h = -1 ↔ h.valid = false) ∧
    (_IsValidStatusbarHandle st h = -2 ↔
      h.valid = true ∧ ¬ h.idx < st.registry.length) ∧
    (_IsValidStatusbarHandle st h = -3 ↔
      h.valid = true ∧ h.idx < st.registry.length ∧
      ∃ sb, st.registry.get? h.idx = some sb ∧ h.id ≠ sb.id) ∧
    (_IsValidStatusbarHandle st h = -4 ↔
      h.valid = true ∧ h.idx < st.registry.length ∧
      ∃ sb, st.registry.get? h.idx = some sb ∧ h.id = sb.id ∧ h.id = 0 ∧
        sb.id = 0) := by
  by_cases hin : h.idx < st.registry.length
  · obtain ⟨sb, hsb⟩ : ∃ sb, st.registry.get? h.idx = some sb := by
      cases e : st.registry.get? h.idx with
      | none => exact absurd (List.get?_eq_none.mp e) (not_le.mpr hin)
      | some sb => exact ⟨sb, rfl⟩
    obtain ⟨a1, a2, a3, a4, a5⟩ := validate_sb_cases st h sb hlen hsb
    refine ⟨?_, a2, a3, ?_, ?_⟩
    · constructor
      · intro hv
        obtain ⟨v, i, e, n⟩ := a1.mp hv
        exact ⟨v, i, ⟨sb, hsb, e⟩, n⟩
      · rintro ⟨v, i, ⟨sb2, hsb2, e⟩, n⟩
        rw [hsb] at hsb2
        cases Option.some.inj hsb2
        exact a1.mpr ⟨v, i, e, n⟩
    · constructor
      · intro hv
        obtain ⟨v, i, e⟩ := a4.mp hv
        exact ⟨v, i, ⟨sb, hsb, e⟩⟩
      · rintro ⟨v, i, ⟨sb2, hsb2, e⟩⟩
        rw [hsb] at hsb2
        cases Option.some.inj hsb2
        exact a4.mpr ⟨v, i, e⟩
    · constructor
      · intro hv
        obtain ⟨v, i, e, z, zs⟩ := a5.mp hv
        exact ⟨v, i, ⟨sb, hsb, e, z, zs⟩⟩
      · rintro ⟨v, i, ⟨sb2, hsb2, e, z, zs⟩⟩
        rw [hsb] at hsb2
        cases Option.some.inj hsb2
        exact a5.mpr ⟨v, i, e, z, zs⟩
  · by_cases hvf : h.valid = false
    · have hval : _IsValidStatusbarHandle st h = -1 := by
        unfold _IsValidStatusbarHandle
        rw [if_pos hvf]
      rw [hval]
      refine ⟨iff_of_false (by decide) (fun hcon => hin hcon.2.1),
        iff_of_true rfl hvf,
        iff_of_false (by decide)
          (fun hcon => absurd (hvf.symm.trans hcon.1) (by decide)),
        iff_of_false (by decide) (fun hcon => hin hcon.2.1),
        iff_of_false (by decide) (fun hcon => hin hcon.2.1)⟩
    · have hvt : h.valid = true := by
        revert hvf
        cases h.valid <;> simp
      have hval : _IsValidStatusbarHandle st h = -2 := by
        unfold _IsValidStatusbarHandle
        rw [if_neg hvf, if_pos (Or.inl (not_lt.mp hin))]
      rw [hval]
      exact ⟨iff_of_false (by decide) (fun hcon => hin hcon.2.1),
        iff_of_false (by decide)
          (fun hcon => absurd (hvt.symm.trans hcon) (by decide)),
        iff_of_true rfl ⟨hvt, hin⟩,
        iff_of_false (by decide) (fun hcon => hin hcon.2.1),
        iff_of_false (by decide) (fun hcon => hin hcon.2.1)⟩

/-- The sink handle verdicts for an *arbitrary* handle: out-of-range
handles are refused with `-2` before the slot is touched, and the
moved-from null slot (reachable only through the `DestroySinkHandle`
close-failure bug) makes the in-range check crash rather than return a
code, so each verdict requires a live slot. -/
lemma validate_sink_general (ss : SinkState) (hs : SinkHandle)
    (hslen : ss.registry.length ≤ sizeMax) :
    (IsValidSinkHandle ss hs = .ok 0 ↔
      hs.valid = true ∧ hs.idx < ss.registry.length ∧
      (∃ s, ss.registry.get? hs.idx = some (some s) ∧ hs.id = s.id) ∧
      hs.id ≠ 0) ∧
    (IsValidSinkHandle ss hs = .ok (-1) ↔ hs.valid = false) ∧
    (IsValidSinkHandle ss hs = .ok (-2) ↔
      hs.valid = true ∧ ¬ hs.idx < ss.registry.length) ∧
    (IsValidSinkHandle ss hs = .ok (-3) ↔
      hs.valid = true ∧ hs.idx < ss.registry.length ∧
      ∃ s, ss.registry.get? hs.idx = some (some s) ∧ hs.id ≠ s.id) ∧
    (IsValidSinkHandle ss hs = .ok (-4) ↔
      hs.valid = true ∧ hs.idx < ss.registry.length ∧
      ∃ s, ss.registry.get? hs.idx = some (some s) ∧ hs.id = s.id ∧
        hs.id = 0 ∧ s.id = 0) := by
  by_cases hin : hs.idx < ss.registry.length
  · cases hosb : ss.registry.get? hs.idx with
    | none => exact absurd (List.get?_eq_none.mp hosb) (not_le.mpr hin)
    | some osb =>
        cases osb with
        | some s =>
            obtain ⟨b1, b2, b3, b4, b5⟩ := validate_sink_cases ss hs s hslen
              hosb
            refine ⟨?_, b2, b3, ?_, ?_⟩
            · constructor
              · intro hv
                obtain ⟨v, i, e, n⟩ := b1.mp hv
                exact ⟨v, i, ⟨s, rfl, e⟩, n⟩
              · rintro ⟨v, i, ⟨s2, hs2, e⟩, n⟩
                cases Option.some.inj (Option.some.inj hs2)
                exact b1.mpr ⟨v, i, e, n⟩
            · constructor
              · intro hv
                obtain ⟨v, i, e⟩ := b4.mp hv
                exact ⟨v, i, ⟨s, rfl, e⟩⟩
              · rintro ⟨v, i, ⟨s2, hs2, e⟩⟩
                cases Option.some.inj (Option.some.inj hs2)
                exact b4.mpr ⟨v, i, e⟩
            · constructor
              · intro hv
                obtain ⟨v, i, e, z, zs⟩ := b5.mp hv
                exact ⟨v, i, ⟨s, rfl, e, z, zs⟩⟩
              · rintro ⟨v, i, ⟨s2, hs2, e, z, zs⟩⟩
                cases Option.some.inj (Option.some.inj hs2)
                exact b5.mpr ⟨v, i, e, z, zs⟩
        | none =>
            have hnulldis : ∀ s : Sink,
                ¬ ((some (none : Option Sink) : Option (Option Sink)) =
                  some (some s)) := by
              intro s hcon
              exact Option.noConfusion (Option.some.inj hcon)
            by_cases hvf : hs.valid = false
            · have hval : IsValidSinkHandle ss hs = .ok (-1) := by
                unfold IsValidSinkHandle
                rw [if_pos hvf]
              rw [hval]
              refine ⟨iff_of_false
                  (fun hcon => absurd (Except.ok.inj hcon) (by decide))
                  (fun hcon => hnulldis _ hcon.2.2.1.choose_spec.1),
                iff_of_true rfl hvf,
                iff_of_false
                  (fun hcon => absurd (Except.ok.inj hcon) (by decide))
                  (fun hcon => absurd (hvf.symm.trans hcon.1) (by decide)),
                iff_of_false
                  (fun hcon => absurd (Except.ok.inj hcon) (by decide))
                  (fun hcon => hnulldis _ hcon.2.2.choose_spec.1),
                iff_of_false
                  (fun hcon => absurd (Except.ok.inj hcon) (by decide))
                  (fun hcon => hnulldis _ hcon.2.2.choose_spec.1)⟩
            · have hvt : hs.valid = true := by
                revert hvf
                cases hs.valid <;> simp
              have hval : IsValidSinkHandle ss hs =
                  .error
                    "null sink registry slot dereferenced in IsValidSinkHandle"
                  := by
                unfold IsValidSinkHandle
                rw [if_neg hvf,
                  if_neg (by
                    rw [not_or]
                    exact ⟨not_le.mpr hin, by omega⟩), hosb]
              rw [hval]
              exact ⟨iff_of_false (fun hcon => Except.noConfusion hcon)
                  (fun hcon => hnulldis _ hcon.2.2.1.choose_spec.1),
                iff_of_false (fun hcon => Except.noConfusion hcon)
                  (fun hcon => absurd (hvt.symm.trans hcon) (by decide)),
                iff_of_false (fun hcon => Except.noConfusion hcon)
                  (fun hcon => hcon.2 hin),
                iff_of_false (fun hcon => Except.noConfusion hcon)
                  (fun hcon => hnulldis _ hcon.2.2.choose_spec.1),
                iff_of_false (fun hcon => Except.noConfusion hcon)
                  (fun hcon => hnulldis _ hcon.2.2.choose_spec.1)⟩
  · by_cases hvf : hs.valid = false
    · have hval : IsValidSinkHandle ss hs = .ok (-1) := by
        unfold IsValidSinkHandle
        rw [if_pos hvf]
      rw [hval]
      refine ⟨iff_of_false
          (fun hcon => absurd (Except.ok.inj hcon) (by decide))
          (fun hcon => hin hcon.2.1),
        iff_of_true rfl hvf,
        iff_of_false
          (fun hcon => absurd (Except.ok.inj hcon) (by decide))
          (fun hcon => absurd (hvf.symm.trans hcon.1) (by decide)),
        iff_of_false
          (fun hcon => absurd (Except.ok.inj hcon) (by decide))
          (fun hcon => hin hcon.2.1),
        iff_of_false
          (fun hcon => absurd (Except.ok.inj hcon) (by decide))
          (fun hcon => hin hcon.2.1)⟩
    · have hvt : hs.valid = true := by
        revert hvf
        cases hs.valid <;> simp
      have hval : IsValidSinkHandle ss hs = .ok (-2) := by
        unfold IsValidSinkHandle
        rw [if_neg hvf, if_pos (Or.inl (not_lt.mp hin))]
      rw [hval]
      exact ⟨iff_of_false
          (fun hcon => absurd (Except.ok.inj hcon) (by decide))
          (fun hcon => hin hcon.2.1),
        iff_of_false
          (fun hcon => absurd (Except.ok.inj hcon) (by decide))
          (fun hcon => absurd (hvt.symm.trans hcon) (by decide)),
        iff_of_true rfl ⟨hvt, hin⟩,
        iff_of_false
          (fun hcon => absurd (Except.ok.inj hcon) (by decide))
          (fun hcon => hin hcon.2.1),
        iff_of_false
          (fun hcon => absurd (Except.ok.inj hcon) (by decide))
          (fun hcon => hin hcon.2.1)⟩

/-- **C2.** The four-case validation verdicts for an *arbitrary* statusbar
handle and an *arbitrary* sink handle — including handles whose slot index
is out of range, which fail with `-2` before any slot is read. Success
exactly when the flag is set, the index is in range, the id matches the
(live) slot's id and the id is nonzero; otherwise the first failing check
in the order `-1` (flag), `-2` (index), `-3` (id mismatch), `-4` (zero id)
wins, and `-4` arises only with the flag set and both ids zero. (The only
hypotheses bound the registry length by `SIZE_MAX`, which every reachable
`std::vector` satisfies.) -/
theorem validate_four_cases (st : SbState) (h : StatusbarHandle)
    (ss : SinkState) (hs : SinkHandle)
    (hlen : st.registry.length ≤ sizeMax)
    (hslen : ss.registry.length ≤ sizeMax) :
    (_IsValidStatusbarHandle st h = 0 ↔
      h.valid = true ∧ h.idx < st.registry.length ∧
      (∃ sb, st.registry.get? h.idx = some sb ∧ h.id = sb.id) ∧ h.id ≠ 0) ∧
    (_IsValidStatusbarHandle st h = -1 ↔ h.valid = false) ∧
    (_IsValidStatusbarHandle st h = -2 ↔
      h.valid = true ∧ ¬ h.idx < st.registry.length) ∧
    (_IsValidStatusbarHandle st h = -3 ↔
      h.valid = true ∧ h.idx < st.registry.length ∧
      ∃ sb, st.registry.get? h.idx = some sb ∧ h.id ≠ sb.id) ∧
    (_IsValidStatusbarHandle st h = -4 ↔
      h.valid = true ∧ h.idx < st.registry.length ∧
      ∃ sb, st.registry.get? h.idx = some sb ∧ h.id = sb.id ∧ h.id = 0 ∧
        sb.id = 0) ∧
    (IsValidSinkHandle ss hs = .ok 0 ↔
      hs.valid = true ∧ hs.idx < ss.registry.length ∧
      (∃ s, ss.registry.get? hs.idx = some (some s) ∧ hs.id = s.id) ∧
      hs.id ≠ 0) ∧
    (IsValidSinkHandle ss hs = .ok (-1) ↔ hs.valid = false) ∧
    (IsValidSinkHandle ss hs = .ok (-2) ↔
      hs.valid = true ∧ ¬ hs.idx < ss.registry.length) ∧
    (IsValidSinkHandle ss hs = .ok (-3) ↔
      hs.valid = true ∧ hs.idx < ss.registry.length ∧
      ∃ s, ss.registry.get? hs.idx = some (some s) ∧ hs.id ≠ s.id) ∧
    (IsValidSinkHandle ss hs = .ok (-4) ↔
      hs.valid = true ∧ hs.idx < ss.registry.length ∧
      ∃ s, ss.registry.get? hs.idx = some (some s) ∧ hs.id = s.id ∧
        hs.id = 0 ∧ s.id = 0) := by
  obtain ⟨a1, a2, a3, a4, a5⟩ := validate_sb_general st h hlen
  obtain ⟨b1, b2, b3, b4, b5⟩ := validate_sink_general ss hs hslen
  exact ⟨a1, a2, a3, a4, a5, b1, b2, b3, b4, b5⟩

/-- **C1.** Contrary to the claim, `UpdateStatusbar` does *not* report an
out-of-range slot index with a negative status: it reads
`_statusbar_registry[handle.idx]` before any validity check, so a handle
whose index is beyond the registry (here: index 3 on an empty registry)
performs an out-of-bounds `std::vector` access — undefined behaviour, not
a status code. The intended behaviour (`_IsValidStatusbarHandle` returning
`-2`, turned into `-4 = err - 2`) exists in the code but runs only after
the faulting access. -/
theorem updateStatusbar_oob_access_before_validation :
    UpdateStatusbar cfgW envW SinkState.initial SbState.initial ⟨3, 7, true⟩
        0 50 =
      .error "out-of-bounds statusbar registry access in UpdateStatusbar" ∧
    _IsValidStatusbarHandle SbState.initial ⟨3, 7, true⟩ = -2 := by
  constructor <;> rfl

/-- **C9.** Contrary to the claim, when closing the owned file fails,
`DestroySinkHandle` returns `-6` with the caller's handle still marked
valid (it is invalidated only later, on the success path) and with the
registry slot left as a moved-from null `unique_ptr` (partial mutation: a
subsequent validation of any handle to this slot dereferences null). The
double-destroy half of the claim does hold: destroying an
already-destroyed handle returns `-1` (InvalidFlag). -/
theorem destroySinkHandle_close_failure_partial_mutation :
    (DestroySinkHandle envCloseFail ssFile hSinkFile =
      .ok ⟨-6, ⟨[none], [], 1⟩, ⟨0, 1, true⟩⟩) ∧
    (∀ r : SinkOpResult,
      DestroySinkHandle envW ssFile hSinkFile = .ok r →
        r.status = 0 ∧ r.h.valid = false ∧
        DestroySinkHandle envW r.ss r.h = .ok ⟨-1, r.ss, r.h⟩) := by
  constructor
  · rfl
  · intro r hr
    have : r = ⟨0,
        ⟨[some ⟨false, true, false, strBytes "log.txt", .kSinkInvalid, -1, 0⟩],
          [⟨0, 0, false⟩], 1⟩, ⟨0, 0, false⟩⟩ := by
      have := hr.symm.trans (by rfl :
        DestroySinkHandle envW ssFile hSinkFile = .ok _)
      exact (Except.ok.injEq _ _).mp this.symm |>.symm ▸ rfl
    subst this
    exact ⟨rfl, rfl, rfl⟩

/-- The integer-arithmetic fill count is exactly
`⌊percent * bar_width / 100⌋`, the formula of the C++
`std::floor(percent * bar_width / 100.0)`. -/
lemma _BarFill_eq_floor (p : ℚ) (w : Nat) :
    _BarFill p w = (Int.floor (p * (w : ℚ) / 100)).toNat := by
  unfold _BarFill
  congr 1
  have h1 : p * (w : ℚ) / 100 =
      ((p.num * w : Int) : ℚ) / ((p.den * 100 : Nat) : ℚ) := by
    conv_lhs => rw [← Rat.num_div_den p]
    push_cast
    have hden : ((p.den : ℚ)) ≠ 0 := by
      exact_mod_cast p.den_nz
    field_simp
  rw [h1, Rat.floor_intCast_div_natCast]
  push_cast
  rfl

lemma spinner_glyph_mem (phase : Nat) :
    spinner.getD (phase % 4) 0 ∈ spinner ∧ spinner.getD (phase % 4) 0 ≠ 35 := by
  have h4 : phase % 4 = 0 ∨ phase % 4 = 1 ∨ phase % 4 = 2 ∨ phase % 4 = 3 := by
    omega
  rcases h4 with h | h | h | h <;> rw [h] <;> decide

lemma interior_count (p : ℚ) (w : Nat) (c : Nat) (hc : c ≠ 35) :
    (_BarInterior p w c).count 35 = _BarFill p w := by
  unfold _BarInterior
  by_cases he : 0 < w - _BarFill p w
  · rw [if_pos he]
    simp [List.count_append, List.count_replicate_self, List.count_cons,
      List.count_replicate, hc, Ne.symm hc]
  · rw [if_neg he]
    simp [List.count_append, List.count_replicate_self,
      List.count_replicate]

lemma interior_spinner_after_fill (p : ℚ) (w : Nat) (c : Nat)
    (he : 0 < w - _BarFill p w) :
    (_BarInterior p w c).get? (_BarFill p w) = some c := by
  unfold _BarInterior
  rw [if_pos he]
  rw [List.get?_append_right (by simp)]
  simp

/-- **C7.** Renderer facts: (a) the cells between the brackets contain
exactly `floor(percent*width/100)` filled cells, a count independent of
prefix and postfix (the line is `prefix ++ "[" ++ interior ++ "] " ++
percentage ++ postfix` with the interior not depending on them); (b) if any
space remains, the cell right after the fill is a spinner glyph from
`{|, /, -, \}`; (c) the terminal width is consulted only for interactive
sinks — for a non-interactive sink the draw result does not depend on the
environment's width query at all; (d) an interactive line longer than the
reported width `tw` is truncated to `tw - 1` characters with the non-fatal
truncation status `-3`; (e) a failed width query falls back to 80 columns
and yields a fatal-class status (`-2`, or `-5` if truncation against the
80-column fallback was also needed). -/
theorem renderer_fill_count_truncation_fallback (p : ℚ) (w : Nat)
    (pre post : List Nat) (phase : Nat) (env : Env)
    (hp0 : 0 ≤ p) (hp1 : p ≤ 100) :
    ((_BarInterior p w (spinner.getD (phase % 4) 0)).count 35 = _BarFill p w ∧
      _BarFill p w = (Int.floor (p * (w : ℚ) / 100)).toNat ∧
      _StatusbarLine p w pre post (spinner.getD (phase % 4) 0) =
        pre ++ [91] ++ _BarInterior p w (spinner.getD (phase % 4) 0) ++
          [93, 32] ++ _PercentBytes p ++ post) ∧
    (0 < w - _BarFill p w →
      (_BarInterior p w (spinner.getD (phase % 4) 0)).get? (_BarFill p w) =
          some (spinner.getD (phase % 4) 0) ∧
        spinner.getD (phase % 4) 0 ∈ spinner) ∧
    (∀ env1 env2 : Env,
      _DrawStatusbarComponent env1 true false p w pre post phase =
        _DrawStatusbarComponent env2 true false p w pre post phase) ∧
    (∀ tw : Nat, env.termWidth = some tw →
      (_StatusbarLine p w pre post (spinner.getD (phase % 4) 0)).length > tw →
      _DrawStatusbarComponent env true true p w pre post phase =
        ⟨-3, phase % 4,
          some ((_StatusbarLine p w pre post
            (spinner.getD (phase % 4) 0)).take (tw - 1))⟩ ∧
      _logErrIsCritical (-3) = false) ∧
    (env.termWidth = none →
      (_DrawStatusbarComponent env true true p w pre post phase).err =
        (if (_StatusbarLine p w pre post
              (spinner.getD (phase % 4) 0)).length > 80 then -5 else -2) ∧
      _logErrIsCritical
        (_DrawStatusbarComponent env true true p w pre post phase).err =
          true) := by
  have hg : ¬ (p > 100 ∨ p < 0) := by
    push_neg
    exact ⟨hp1, hp0⟩
  have hglyph := spinner_glyph_mem phase
  refine ⟨⟨interior_count _ _ _ hglyph.2, _BarFill_eq_floor p w, rfl⟩,
    fun he => ⟨interior_spinner_after_fill _ _ _ he, hglyph.1⟩, ?_, ?_, ?_⟩
  · intro env1 env2
    by_cases hgg : p > 100 ∨ p < 0 <;>
      simp [_DrawStatusbarComponent, hgg]
  · intro tw hw hlong
    unfold _DrawStatusbarComponent
    rw [if_neg (by simp), if_neg hg]
    simp only [_GetTerminalWidth, hw, if_pos]
    rw [if_pos hlong]
    exact ⟨rfl, rfl⟩
  · intro hw
    unfold _DrawStatusbarComponent
    rw [if_neg (by simp), if_neg hg]
    simp only [_GetTerminalWidth, hw, if_pos]
    by_cases hlong :
        (_StatusbarLine p w pre post (spinner.getD (phase % 4) 0)).length > 80
    · rw [if_pos hlong, if_pos hlong]
      exact ⟨rfl, rfl⟩
    · rw [if_neg hlong, if_neg hlong]
      exact ⟨rfl, rfl⟩

lemma isValidSink_ok_slot {ss : SinkState} {hh : SinkHandle}
    (h0 : IsValidSinkHandle ss hh = .ok 0) :
    ∃ s, ss.registry.get? hh.idx = some (some s) := by
  unfold IsValidSinkHandle at h0
  by_cases h1 : hh.valid = false
  · rw [if_pos h1] at h0
    simp at h0
  · rw [if_neg h1] at h0
    by_cases h2 : hh.idx ≥ ss.registry.length ∨ hh.idx = sizeMax
    · rw [if_pos h2] at h0
      simp at h0
    · rw [if_neg h2] at h0
      cases e : ss.registry.get? hh.idx with
      | none => rw [e] at h0; simp at h0
      | some o =>
          cases o with
          | none => rw [e] at h0; simp at h0
          | some s => exact ⟨s, rfl⟩

lemma sinkIsTty_of_ok {env : Env} {ss : SinkState} {hh : SinkHandle}
    {s : Sink} (h0 : IsValidSinkHandle ss hh = .ok 0)
    (hs : ss.registry.get? hh.idx = some (some s)) :
    SinkIsTty env ss hh = .ok (if s.fd ≥ 0 then env.isTty else false) := by
  unfold SinkIsTty IsValidSinkHandleVerbose
  rw [h0, hs]
  rfl

lemma draw_spin (env : Env) (tty : Bool) (p : ℚ) (w : Nat)
    (pre post : List Nat) (si : Nat) (hg : ¬ (p > 100 ∨ p < 0)) :
    (_DrawStatusbarComponent env true tty p w pre post si).spin = si % 4 := by
  unfold _DrawStatusbarComponent
  rw [if_neg (by simp), if_neg hg]
  dsimp only
  split_ifs <;> rfl

lemma draw_err_nonpos (env : Env) (ol tty : Bool) (p : ℚ) (w : Nat)
    (pre post : List Nat) (si : Nat) :
    (_DrawStatusbarComponent env ol tty p w pre post si).err ≤ 0 := by
  unfold _DrawStatusbarComponent _GetTerminalWidth
  cases htw : env.termWidth <;> dsimp only <;> split_ifs <;>
    norm_num [kStatusbarLogSuccess]

lemma get?_set_self {α : Type} (l : List α) (n : Nat) (a : α)
    (h : n < l.length) : (l.set n a).get? n = some a := by
  rw [List.get?_eq_getElem?]
  exact List.getElem?_set_eq_of_lt a h

lemma logv_eq (cfg : Config) (env : Env) (ss : SinkState) (st : SbState)
    (level : LogLevel) (fn msg : List Nat) (sink_h : SinkHandle) (sL : Sink)
    (hlev : ¬ level.toNat > cfg.kLogLevel)
    (hsink : IsValidSinkHandle ss sink_h = .ok 0)
    (hsl : ss.registry.get? sink_h.idx = some (some sL)) :
    LogV cfg env ss st level fn msg sink_h =
      (match (_redrawAllAux env (if sL.fd ≥ 0 then env.isTty else false) 0
          st.registry).1 with
       | some errv =>
          Except.ok ⟨errv,
            ⟨(_redrawAllAux env (if sL.fd ≥ 0 then env.isTty else false) 0
                st.registry).2.1, st.free, st.idCount⟩,
            some (_logLine cfg level fn msg), _logMove st.registry,
            (_redrawAllAux env (if sL.fd ≥ 0 then env.isTty else false) 0
              st.registry).2.2⟩
       | none =>
          Except.ok ⟨0,
            ⟨(_redrawAllAux env (if sL.fd ≥ 0 then env.isTty else false) 0
                st.registry).2.1, st.free, st.idCount⟩,
            some (_logLine cfg level fn msg), _logMove st.registry,
            (_redrawAllAux env (if sL.fd ≥ 0 then env.isTty else false) 0
              st.registry).2.2⟩) := by
  unfold LogV IsValidSinkHandleVerbose
  rw [if_neg hlev, hsink, sinkIsTty_of_ok hsink hsl]
  rfl

lemma logv_eq_abort (cfg : Config) (env : Env) (ss : SinkState) (st : SbState)
    (level : LogLevel) (fn msg : List Nat) (sink_h : SinkHandle) (sL : Sink)
    (ec : Int) (hlev : ¬ level.toNat > cfg.kLogLevel)
    (hsink : IsValidSinkHandle ss sink_h = .ok 0)
    (hsl : ss.registry.get? sink_h.idx = some (some sL))
    (hab : (_redrawAllAux env (if sL.fd ≥ 0 then env.isTty else false) 0
        st.registry).1 = some ec) :
    LogV cfg env ss st level fn msg sink_h =
      .ok ⟨ec,
        ⟨(_redrawAllAux env (if sL.fd ≥ 0 then env.isTty else false) 0
            st.registry).2.1, st.free, st.idCount⟩,
        some (_logLine cfg level fn msg), _logMove st.registry,
        (_redrawAllAux env (if sL.fd ≥ 0 then env.isTty else false) 0
          st.registry).2.2⟩ := by
  rw [logv_eq cfg env ss st level fn msg sink_h sL hlev hsink hsl, hab]

lemma logv_eq_ok (cfg : Config) (env : Env) (ss : SinkState) (st : SbState)
    (level : LogLevel) (fn msg : List Nat) (sink_h : SinkHandle) (sL : Sink)
    (hlev : ¬ level.toNat > cfg.kLogLevel)
    (hsink : IsValidSinkHandle ss sink_h = .ok 0)
    (hsl : ss.registry.get? sink_h.idx = some (some sL))
    (hok : (_redrawAllAux env (if sL.fd ≥ 0 then env.isTty else false) 0
        st.registry).1 = none) :
    LogV cfg env ss st level fn msg sink_h =
      .ok ⟨0,
        ⟨(_redrawAllAux env (if sL.fd ≥ 0 then env.isTty else false) 0
            st.registry).2.1, st.free, st.idCount⟩,
        some (_logLine cfg level fn msg), _logMove st.registry,
        (_redrawAllAux env (if sL.fd ≥ 0 then env.isTty else false) 0
          st.registry).2.2⟩ := by
  rw [logv_eq cfg env ss st level fn msg sink_h sL hlev hsink hsl, hok]

lemma redrawDraw_err_nonpos (env : Env) (tty : Bool) (sb : Statusbar)
    (j : Nat) : (_redrawDraw env tty sb j).err ≤ 0 := by
  unfold _redrawDraw
  exact draw_err_nonpos env true tty _ _ _ _ _

lemma redrawOne_abort_neg (env : Env) (tty : Bool) (js : List Nat)
    (sb : Statusbar) (ec : Int) :
    (_redrawOneAux env tty js sb).1 = some ec → ec < 0 := by
  induction js generalizing sb with
  | nil =>
      intro hx
      simp [_redrawOneAux] at hx
  | cons j js ih =>
      intro hx
      unfold _redrawOneAux at hx
      split_ifs at hx with hcrit
      · dsimp only at hx
        rw [Option.some.injEq] at hx
        have := redrawDraw_err_nonpos env tty sb j
        omega
      · dsimp only at hx
        exact ih _ hx

lemma redrawAll_abort_neg (env : Env) (tty : Bool) (i : Nat)
    (reg : List Statusbar) (ec : Int) :
    (_redrawAllAux env tty i reg).1 = some ec → ec < 0 := by
  induction reg generalizing i with
  | nil =>
      intro hx
      simp [_redrawAllAux] at hx
  | cons sb rest ih =>
      intro hx
      unfold _redrawAllAux at hx
      cases hr : (_redrawOneAux env tty (List.range sb.positions.length) sb).1
        with
      | some e =>
          rw [hr] at hx
          dsimp only at hx
          rw [Option.some.injEq] at hx
          exact hx ▸ redrawOne_abort_neg env tty _ sb e hr
      | none =>
          rw [hr] at hx
          dsimp only at hx
          exact ih (i + 1) hx

lemma foldr_max_init (l : List Nat) (c : Nat) :
    l.foldr max c = max (l.foldr max 0) c := by
  induction l with
  | nil => simp
  | cons a l ih =>
      simp only [List.foldr_cons, ih]
      rw [← max_assoc]

lemma foldl_pos_max (l : List Nat) (m : Int) (hm : 0 ≤ m) :
    l.foldl (fun (m2 : Int) (p : Nat) =>
        if (p : Int) > m2 then (p : Int) else m2) m =
      max m ((l.foldr max 0 : Nat) : Int) := by
  induction l generalizing m with
  | nil => simp [max_eq_left hm]
  | cons p l ih =>
      simp only [List.foldl_cons, List.foldr_cons]
      have hstep : (if (p : Int) > m then (p : Int) else m) = max (p : Int) m := by
        rw [max_def]
        split_ifs <;> omega
      rw [hstep, ih _ (le_max_of_le_left (Int.ofNat_nonneg p))]
      push_cast
      rw [max_comm (p : Int) m, max_assoc]

lemma logMove_aux (reg : List Statusbar) (m : Int) (hm : 0 ≤ m) :
    reg.foldl
        (fun (m : Int) (sb : Statusbar) =>
          sb.positions.foldl
            (fun (m2 : Int) (p : Nat) =>
              if (p : Int) > m2 then (p : Int) else m2) m) m =
      max m (((reg.map Statusbar.positions).flatten.foldr max 0 : Nat) :
        Int) := by
  induction reg generalizing m with
  | nil => simp [max_eq_left hm]
  | cons sb rest ih =>
      simp only [List.foldl_cons, List.map_cons, List.flatten_cons,
        List.foldr_append]
      rw [foldl_pos_max _ m hm]
      rw [ih _ (le_max_of_le_left hm)]
      rw [foldr_max_init sb.positions
        ((List.map Statusbar.positions rest).flatten.foldr max 0)]
      push_cast
      rw [max_assoc]

/-- `LogV`'s cursor move is the maximum of all registered bars' rows. -/
lemma logMove_eq (reg : List Statusbar) :
    _logMove reg =
      (((reg.map Statusbar.positions).flatten.foldr max 0 : Nat) : Int) := by
  unfold _logMove
  rw [logMove_aux reg 0 le_rfl]
  simp

lemma redrawOne_pairs (env : Env) (tty : Bool) (js : List Nat)
    (sb : Statusbar) (h : (_redrawOneAux env tty js sb).1 = none) :
    (_redrawOneAux env tty js sb).2.2 = js := by
  induction js generalizing sb with
  | nil => rfl
  | cons j js ih =>
      unfold _redrawOneAux at h ⊢
      by_cases hc : (_redrawDraw env tty sb j).err ≠ 0 ∧
          sb.error_reported = false ∧
          _logErrIsCritical (_redrawDraw env tty sb j).err
      · rw [if_pos hc] at h
        exact absurd h (by simp)
      · rw [if_neg hc] at h ⊢
        dsimp only at h ⊢
        rw [ih _ h]

lemma redrawAll_pairs (env : Env) (tty : Bool) (i : Nat)
    (reg : List Statusbar) (h : (_redrawAllAux env tty i reg).1 = none) :
    (_redrawAllAux env tty i reg).2.2 = _allBarPairsFrom i reg := by
  induction reg generalizing i with
  | nil => rfl
  | cons sb rest ih =>
      unfold _redrawAllAux at h ⊢
      cases hr : (_redrawOneAux env tty (List.range sb.positions.length) sb).1
        with
      | some e =>
          rw [hr] at h
          dsimp only at h
          simp at h
      | none =>
          rw [hr] at h
          dsimp only at h ⊢
          unfold _allBarPairsFrom
          rw [redrawOne_pairs env tty _ sb hr, ih (i + 1) h]

/-- **C4 counterexample.** With two statusbars bound to two *different*
sinks (rows 1 and 5), a log call on the first sink computes the cursor
move 5 — the maximum over *all* registered bars, including the one bound
to the other sink — and redraws both statusbars, while the spec's
per-sink reading demands move 1 and a redraw of only the first sink's bar:
the claim is false on the code. -/
theorem logv_not_sink_scoped_counterexample :
    (LogV cfgW envW ssTwo stTwo .kLogLevelErr (strBytes "f.cc")
        (strBytes "hello") hSinkA).toOption.map
      (fun r => (r.move, r.redrawn)) = some (5, [(0, 0), (1, 0)]) ∧
    _logMoveSpec hSinkA stTwo.registry = 1 ∧
    _redrawSpecPairs hSinkA stTwo.registry = [(0, 0)] ∧
    ((5 : Int) ≠ 1 ∧ ([(0, 0), (1, 0)] : List (Nat × Nat)) ≠ [(0, 0)]) := by
  refine ⟨?_, ?_, ?_, by decide⟩ <;> rfl

/-- **C4 (amended).** For every log call at an enabled level (one of the
four real levels) on a valid sink, when no registered bar's redraw reports
a critical error, `LogV` writes exactly one line
`"<LEVEL> [<sanitized, capped tag>]: <capped, sanitized message>\n"` with
LEVEL in ERROR/WARNING/INFO/DEBUG, computes the cursor move as the maximum
`screen_row` over *all registered bars of every sink* (0 if none), and
redraws *every registered bar* — including bars attached to other sinks —
through the given sink. -/
theorem logv_line_move_redraw (cfg : Config) (env : Env) (ss : SinkState)
    (st : SbState) (level : LogLevel) (fn msg : List Nat)
    (sink_h : SinkHandle) (sL : Sink)
    (hlev : level.toNat ≤ cfg.kLogLevel) (hlev0 : level ≠ .kLogLevelOff)
    (hsink : IsValidSinkHandle ss sink_h = .ok 0)
    (hsl : ss.registry.get? sink_h.idx = some (some sL))
    (hok : (_redrawAllAux env (if sL.fd ≥ 0 then env.isTty else false) 0
        st.registry).1 = none) :
    ∃ r : LogResult, LogV cfg env ss st level fn msg sink_h = .ok r ∧
      r.status = 0 ∧
      r.line = some (_logLine cfg level fn msg) ∧
      (_logPrefix level = strBytes "ERROR" ∨
        _logPrefix level = strBytes "WARNING" ∨
        _logPrefix level = strBytes "INFO" ∨
        _logPrefix level = strBytes "DEBUG") ∧
      r.move = _logMove st.registry ∧
      _logMove st.registry =
        (((st.registry.map Statusbar.positions).flatten.foldr max 0 : Nat) :
          Int) ∧
      r.redrawn = _allBarPairs st.registry := by
  refine ⟨_, logv_eq_ok cfg env ss st level fn msg sink_h sL
    (not_lt.mpr hlev) hsink hsl hok, rfl, rfl, ?_, rfl, logMove_eq _, ?_⟩
  · cases level with
    | kLogLevelOff => exact absurd rfl hlev0
    | kLogLevelErr => exact Or.inl rfl
    | kLogLevelWrn => exact Or.inr (Or.inl rfl)
    | kLogLevelInf => exact Or.inr (Or.inr (Or.inl rfl))
    | kLogLevelDbg => exact Or.inr (Or.inr (Or.inr rfl))
  · exact redrawAll_pairs env _ 0 st.registry hok

lemma except_bind_ok {α β : Type} {x : Except String α} {f : α → Except String β}
    {r : β} (h : x >>= f = .ok r) : ∃ a, x = .ok a ∧ f a = .ok r := by
  cases x with
  | ok a => exact ⟨a, rfl, h⟩
  | error e =>
      exact absurd h (by simp [Bind.bind, Except.bind])

lemma ok_bind {α β : Type} (a : α) (f : α → Except String β) :
    ((Except.ok a : Except String α) >>= f) = f a := rfl

lemma pure_ok {α : Type} (a : α) :
    (pure a : Except String α) = Except.ok a := rfl


lemma bumpId_ne_zero (c : Nat) : _bumpId c ≠ 0 := by
  unfold _bumpId uintMax
  split_ifs with h <;> omega

lemma bumpId_eq (c : Nat) (h : c + 1 < uintMax) : _bumpId c = c + 1 := by
  unfold _bumpId uintMax at *
  split_ifs with h2 <;> omega

lemma usizeSub_eq (a b : Nat) (hb : b ≤ a) (ha : a < 2 ^ 64) :
    usizeSub a b = a - b := by
  unfold usizeSub
  omega

lemma createStatusbar_eq (cfg : Config) (ss : SinkState) (st : SbState)
    (h : StatusbarHandle) (sink_h : SinkHandle)
    (pos sizes : List Nat) (pres posts : List (List Nat))
    (hsink : IsValidSinkHandle ss sink_h = .ok 0)
    (hinv : _IsValidStatusbarHandle st h ≠ 0)
    (hsz : ¬ (pos.length ≠ sizes.length ∨ sizes.length ≠ pres.length ∨
      pres.length ≠ posts.length)) :
    CreateStatusbarHandle cfg ss st h sink_h pos sizes pres posts =
      (if usizeSub st.registry.length st.free.length ≥
          cfg.kMaxStatusbarHandles then
        .ok ⟨-4, st, ⟨h.idx, 0, false⟩⟩
       else
        match st.free with
        | fh :: rest =>
            .ok ⟨0,
              ⟨st.registry.set fh.idx
                (_newStatusbar cfg sink_h pos sizes pres posts
                  (_bumpId st.idCount)), rest, _bumpId st.idCount⟩,
              ⟨fh.idx, _bumpId st.idCount, true⟩⟩
        | [] =>
            .ok ⟨0,
              ⟨st.registry ++
                [_newStatusbar cfg sink_h pos sizes pres posts
                  (_bumpId st.idCount)], [], _bumpId st.idCount⟩,
              ⟨st.registry.length, _bumpId st.idCount, true⟩⟩) := by
  unfold CreateStatusbarHandle IsValidSinkHandleVerbose
  rw [hsink, if_neg hinv, if_neg hsz]
  rfl

lemma destroyStatusbar_eq (ss : SinkState) (st : SbState)
    (h : StatusbarHandle) (sb : Statusbar)
    (hvalid : _IsValidStatusbarHandle st h = 0)
    (hslot : st.registry.get? h.idx = some sb)
    (hsink : IsValidSinkHandle ss sb.sink_handle = .ok 0) :
    DestroyStatusbarHandle ss st h =
      .ok ⟨0, ⟨st.registry.set h.idx (_clearedStatusbar sb.error_reported),
        ⟨h.idx, 0, false⟩ :: st.free, st.idCount⟩, ⟨h.idx, 0, false⟩⟩ := by
  unfold DestroyStatusbarHandle IsValidSinkHandleVerbose
  rw [hvalid]
  simp only [hslot]
  rw [hsink]
  rfl

lemma default_sb_handle_invalid (st : SbState) :
    _IsValidStatusbarHandle st (default : StatusbarHandle) = -1 := rfl

lemma invalid_flag_validate (st : SbState) (ix idv : Nat) :
    _IsValidStatusbarHandle st ⟨ix, idv, false⟩ = -1 := rfl

lemma createSinkStdout_eq (ss : SinkState) (h : SinkHandle) (e : Int)
    (hv : IsValidSinkHandle ss h = .ok e) (he : e ≠ 0) :
    CreateSinkStdout ss h =
      (if usizeSub ss.registry.length ss.free.length ≥ kMaxSinkHandles then
        .ok ⟨-2, ss, ⟨h.idx, 0, false⟩⟩
       else
        match ss.free with
        | fh :: rest =>
            (match ss.registry.get? fh.idx with
             | some (some _) =>
                .ok ⟨0,
                  ⟨ss.registry.set fh.idx
                    (some ⟨true, true, false, [], .kSinkStdout, stdoutFd,
                      _bumpId ss.idCount⟩), rest, _bumpId ss.idCount⟩,
                  ⟨fh.idx, _bumpId ss.idCount, true⟩⟩
             | _ =>
                .error "null sink registry slot dereferenced in CreateSinkStdout")
        | [] =>
            .ok ⟨0,
              ⟨ss.registry ++
                [some ⟨true, true, false, [], .kSinkStdout, stdoutFd,
                  _bumpId ss.idCount⟩], [], _bumpId ss.idCount⟩,
              ⟨ss.registry.length, _bumpId ss.idCount, true⟩⟩) := by
  unfold CreateSinkStdout _ValidateSinkCreation
  rw [hv]
  show (if e = 0 then _ else _) >>= _ = _
  rw [if_neg he]
  by_cases hc : usizeSub ss.registry.length ss.free.length ≥ kMaxSinkHandles
  · rw [if_pos hc, if_pos hc]
    rfl
  · rw [if_neg hc, if_neg hc]
    rfl

lemma sbCreateIter_inv (cfg : Config) (ss : SinkState) (sink_h : SinkHandle)
    (hsink : IsValidSinkHandle ss sink_h = .ok 0)
    (hkb : cfg.kMaxStatusbarHandles + 1 < uintMax)
    (hkc : cfg.kMaxStatusbarHandles < 2 ^ 64) :
    ∀ n : Nat, n ≤ cfg.kMaxStatusbarHandles →
      (sbCreateIter cfg ss sink_h n).registry.length = n ∧
      (sbCreateIter cfg ss sink_h n).free = [] ∧
      (sbCreateIter cfg ss sink_h n).idCount = n ∧
      (∀ i : Nat, i < n →
        (sbCreateIter cfg ss sink_h n).registry.get? i =
          some (_newStatusbar cfg sink_h [1] [10] [[]] [[]] (i + 1))) := by
  intro n
  induction n with
  | zero =>
      intro _
      exact ⟨rfl, rfl, rfl, fun i hi => absurd hi (Nat.not_lt_zero i)⟩
  | succ n ih =>
      intro hn1
      obtain ⟨hlen, hfree, hid, hslots⟩ := ih (by omega)
      have hC := createStatusbar_eq cfg ss (sbCreateIter cfg ss sink_h n)
        default sink_h [1] [10] [[]] [[]] hsink
        (by rw [default_sb_handle_invalid]; decide) (by simp)
      have hcap : ¬ usizeSub (sbCreateIter cfg ss sink_h n).registry.length
          (sbCreateIter cfg ss sink_h n).free.length ≥
            cfg.kMaxStatusbarHandles := by
        rw [hlen, hfree]
        simp only [List.length_nil]
        rw [usizeSub_eq n 0 (Nat.zero_le n) (by omega)]
        omega
      rw [if_neg hcap, hfree, hid, bumpId_eq n (by omega)] at hC
      show (sbCreateIter cfg ss sink_h (n + 1)).registry.length = n + 1 ∧ _
      unfold sbCreateIter
      rw [hC]
      dsimp only
      refine ⟨by simp [hlen], rfl, rfl, ?_⟩
      intro i hi
      by_cases hin : i < n
      · rw [List.get?_append (by rw [hlen]; exact hin)]
        exact hslots i hin
      · have hieq : i = n := by omega
        subst hieq
        have hcat : ((sbCreateIter cfg ss sink_h i).registry ++
            [_newStatusbar cfg sink_h [1] [10] [[]] [[]] (i + 1)]).get?
              (sbCreateIter cfg ss sink_h i).registry.length =
            some (_newStatusbar cfg sink_h [1] [10] [[]] [[]] (i + 1)) :=
          List.get?_concat_length _ _
        rw [hlen] at hcat
        exact hcat

lemma invalid_flag_sink_validate (ss : SinkState) (ix idv : Nat) :
    IsValidSinkHandle ss ⟨ix, idv, false⟩ = .ok (-1) := rfl

lemma default_sink_handle_invalid (ss : SinkState) :
    IsValidSinkHandle ss (default : SinkHandle) = .ok (-1) := rfl

/-- Success-path equation for `DestroySinkHandle`: valid handle, live
slot, and no owned-file close failure. -/
lemma destroySink_eq (env : Env) (ss : SinkState) (h : SinkHandle)
    (target : Sink)
    (hvalid : IsValidSinkHandle ss h = .ok 0)
    (hslot : ss.registry.get? h.idx = some (some target))
    (hnc : ¬ (target.ownedFile = true ∧ env.closeFails = true)) :
    DestroySinkHandle env ss h =
      .ok ⟨0,
        ⟨(ss.registry.set h.idx none).set h.idx
            (some { target with out := false, ownedFile := false,
                                type := .kSinkInvalid, fd := -1, id := 0 }),
          ⟨h.idx, 0, false⟩ :: ss.free, ss.idCount⟩,
        ⟨h.idx, 0, false⟩⟩ := by
  unfold DestroySinkHandle IsValidSinkHandleVerbose
  simp only [hvalid, hslot, ok_bind, pure_ok]
  rw [if_neg (by decide : ¬ ((0 : Int) ≠ 0))]
  rw [if_neg hnc]

/-- Invariant of `n` successive `CreateSinkStdout` calls from the empty
sink registry: `n` live stdout slots with ids `1..n`, an empty free list
and id counter `n`. -/
lemma sinkCreateIter_inv :
    ∀ n : Nat, n ≤ kMaxSinkHandles →
      (sinkCreateIter n).registry.length = n ∧
      (sinkCreateIter n).free = [] ∧
      (sinkCreateIter n).idCount = n ∧
      (∀ i : Nat, i < n →
        (sinkCreateIter n).registry.get? i =
          some (some ⟨true, true, false, [], .kSinkStdout, stdoutFd,
            i + 1⟩)) := by
  intro n
  induction n with
  | zero =>
      intro _
      exact ⟨rfl, rfl, rfl, fun i hi => absurd hi (Nat.not_lt_zero i)⟩
  | succ n ih =>
      intro hn1
      have hn20 : n + 1 ≤ 20 := by
        unfold kMaxSinkHandles at hn1
        exact hn1
      obtain ⟨hlen, hfree, hid, hslots⟩ := ih (by omega)
      have hC := createSinkStdout_eq (sinkCreateIter n) default (-1)
        (default_sink_handle_invalid _) (by decide)
      have hcap : ¬ usizeSub (sinkCreateIter n).registry.length
          (sinkCreateIter n).free.length ≥ kMaxSinkHandles := by
        rw [hlen, hfree]
        simp only [List.length_nil]
        rw [usizeSub_eq n 0 (Nat.zero_le n) (by omega)]
        unfold kMaxSinkHandles
        omega
      have hb : _bumpId (sinkCreateIter n).idCount = n + 1 := by
        rw [hid]
        exact bumpId_eq n (by unfold uintMax; omega)
      rw [if_neg hcap, hfree, hb] at hC
      show (sinkCreateIter (n + 1)).registry.length = n + 1 ∧ _
      unfold sinkCreateIter
      rw [hC]
      dsimp only
      refine ⟨by simp [hlen], rfl, rfl, ?_⟩
      intro i hi
      by_cases hin : i < n
      · rw [List.get?_append (by rw [hlen]; exact hin)]
        exact hslots i hin
      · have hieq : i = n := by omega
        subst hieq
        have hcat : ((sinkCreateIter i).registry ++
            [(some (⟨true, true, false, [], .kSinkStdout, stdoutFd,
              i + 1⟩ : Sink) : Option Sink)]).get?
              (sinkCreateIter i).registry.length =
            some (some (⟨true, true, false, [], .kSinkStdout, stdoutFd,
              i + 1⟩ : Sink)) :=
          List.get?_concat_length _ _
        rw [hlen] at hcat
        exact hcat

/-- **C6.** Capacity: creation of a statusbar (resp. stdout sink) handle
fails with CapacityExceeded (`-4`, resp. `-2`) exactly when the number of
occupied slots — registry length minus free-list length, in `size_t`
arithmetic — has reached the fixed maximum; starting from the empty
registry, `kMax+1` successive creations succeed exactly `kMax` times and
the `(kMax+1)`-th fails with CapacityExceeded, and after destroying any
one of the live handles a subsequent creation succeeds again. -/
theorem capacity_exceeded_iff_and_sequence (cfg : Config) (ss : SinkState)
    (sink_h : SinkHandle)
    (hsink : IsValidSinkHandle ss sink_h = .ok 0)
    (hk0 : 0 < cfg.kMaxStatusbarHandles)
    (hkb : cfg.kMaxStatusbarHandles + 1 < uintMax)
    (hkc : cfg.kMaxStatusbarHandles < 2 ^ 64) :
    (∀ (st : SbState) (h : StatusbarHandle),
      _IsValidStatusbarHandle st h ≠ 0 →
      ((∃ r : SbOpResult,
          CreateStatusbarHandle cfg ss st h sink_h [1] [10] [[]] [[]] =
            .ok r ∧ r.status = -4) ↔
        usizeSub st.registry.length st.free.length ≥
          cfg.kMaxStatusbarHandles)) ∧
    (∀ (ss2 : SinkState) (h : SinkHandle) (e : Int),
      IsValidSinkHandle ss2 h = .ok e → e ≠ 0 →
      ((∃ r : SinkOpResult, CreateSinkStdout ss2 h = .ok r ∧ r.status = -2) ↔
        usizeSub ss2.registry.length ss2.free.length ≥ kMaxSinkHandles)) ∧
    (∀ n : Nat, n < cfg.kMaxStatusbarHandles →
      ∃ r : SbOpResult,
        CreateStatusbarHandle cfg ss (sbCreateIter cfg ss sink_h n) default
          sink_h [1] [10] [[]] [[]] = .ok r ∧ r.status = 0) ∧
    (∃ r : SbOpResult,
      CreateStatusbarHandle cfg ss
        (sbCreateIter cfg ss sink_h cfg.kMaxStatusbarHandles) default sink_h
        [1] [10] [[]] [[]] = .ok r ∧ r.status = -4) ∧
    (∀ i : Nat, i < cfg.kMaxStatusbarHandles →
      ∃ rd : SbOpResult,
        DestroyStatusbarHandle ss
          (sbCreateIter cfg ss sink_h cfg.kMaxStatusbarHandles)
          ⟨i, i + 1, true⟩ = .ok rd ∧ rd.status = 0 ∧
        ∃ rc : SbOpResult,
          CreateStatusbarHandle cfg ss rd.st rd.h sink_h [1] [10] [[]] [[]] =
            .ok rc ∧ rc.status = 0) ∧
    (∀ n : Nat, n < kMaxSinkHandles →
      ∃ r : SinkOpResult,
        CreateSinkStdout (sinkCreateIter n) default = .ok r ∧
        r.status = 0) ∧
    (∃ r : SinkOpResult,
      CreateSinkStdout (sinkCreateIter kMaxSinkHandles) default = .ok r ∧
      r.status = -2) ∧
    (∀ (env : Env) (i : Nat), i < kMaxSinkHandles →
      ∃ rd : SinkOpResult,
        DestroySinkHandle env (sinkCreateIter kMaxSinkHandles)
          ⟨i, i + 1, true⟩ = .ok rd ∧ rd.status = 0 ∧
        ∃ rc : SinkOpResult,
          CreateSinkStdout rd.ss rd.h = .ok rc ∧ rc.status = 0) := by
  obtain ⟨hKlen, hKfree, hKid, hKslots⟩ :=
    sbCreateIter_inv cfg ss sink_h hsink hkb hkc cfg.kMaxStatusbarHandles
      le_rfl
  obtain ⟨hSlen, hSfree, hSid, hSslots⟩ :=
    sinkCreateIter_inv kMaxSinkHandles le_rfl
  refine ⟨?_, ?_, ?_, ?_, ?_, ?_, ?_, ?_⟩
  · -- (a) statusbar capacity iff
    intro st h hinv
    rw [createStatusbar_eq cfg ss st h sink_h _ _ _ _ hsink hinv (by simp)]
    constructor
    · rintro ⟨r, hr, hs⟩
      by_contra hc
      rw [if_neg hc] at hr
      rcases hfr : st.free with _ | ⟨fh, rest⟩ <;> rw [hfr] at hr <;>
        dsimp only at hr <;>
        · rw [Except.ok.injEq] at hr
          rw [← hr] at hs
          dsimp only at hs
          exact absurd hs (by decide)
    · intro hc
      rw [if_pos hc]
      exact ⟨_, rfl, rfl⟩
  · -- (b) sink capacity iff
    intro ss2 h e hv he
    rw [createSinkStdout_eq ss2 h e hv he]
    constructor
    · rintro ⟨r, hr, hs⟩
      by_contra hc
      rw [if_neg hc] at hr
      rcases hfr : ss2.free with _ | ⟨fh, rest⟩ <;> rw [hfr] at hr <;>
        dsimp only at hr
      · rw [Except.ok.injEq] at hr
        rw [← hr] at hs
        dsimp only at hs
        exact absurd hs (by decide)
      · rcases hslot : ss2.registry.get? fh.idx with _ | ⟨_ | s⟩ <;>
          rw [hslot] at hr <;> dsimp only at hr
        · exact Except.noConfusion hr
        · exact Except.noConfusion hr
        · rw [Except.ok.injEq] at hr
          rw [← hr] at hs
          dsimp only at hs
          exact absurd hs (by decide)
    · intro hc
      rw [if_pos hc]
      exact ⟨_, rfl, rfl⟩
  · -- (c) the first kMax creations succeed
    intro n hn
    obtain ⟨hlen, hfree, hid, _⟩ :=
      sbCreateIter_inv cfg ss sink_h hsink hkb hkc n (le_of_lt hn)
    have hC := createStatusbar_eq cfg ss (sbCreateIter cfg ss sink_h n)
      default sink_h [1] [10] [[]] [[]] hsink
      (by rw [default_sb_handle_invalid]; decide) (by simp)
    have hcap : ¬ usizeSub (sbCreateIter cfg ss sink_h n).registry.length
        (sbCreateIter cfg ss sink_h n).free.length ≥
          cfg.kMaxStatusbarHandles := by
      rw [hlen, hfree]
      simp only [List.length_nil]
      rw [usizeSub_eq n 0 (Nat.zero_le n) (by omega)]
      omega
    rw [if_neg hcap, hfree] at hC
    exact ⟨_, hC, rfl⟩
  · -- (d) the (kMax+1)-th fails with CapacityExceeded
    have hC := createStatusbar_eq cfg ss
      (sbCreateIter cfg ss sink_h cfg.kMaxStatusbarHandles) default sink_h
      [1] [10] [[]] [[]] hsink
      (by rw [default_sb_handle_invalid]; decide) (by simp)
    have hcap : usizeSub
        (sbCreateIter cfg ss sink_h cfg.kMaxStatusbarHandles).registry.length
        (sbCreateIter cfg ss sink_h cfg.kMaxStatusbarHandles).free.length ≥
          cfg.kMaxStatusbarHandles := by
      rw [hKlen, hKfree]
      simp only [List.length_nil]
      rw [usizeSub_eq _ 0 (Nat.zero_le _) (by omega)]
      omega
    rw [if_pos hcap] at hC
    exact ⟨_, hC, rfl⟩
  · -- (e) destroy any one live handle, then creation succeeds again
    intro i hi
    have hslot := hKslots i hi
    have hlen' : (sbCreateIter cfg ss sink_h
        cfg.kMaxStatusbarHandles).registry.length ≤ sizeMax := by
      rw [hKlen]
      unfold sizeMax
      omega
    have hidx : (⟨i, i + 1, true⟩ : StatusbarHandle).idx <
        (sbCreateIter cfg ss sink_h
          cfg.kMaxStatusbarHandles).registry.length := by
      rw [hKlen]
      exact hi
    have hne : (⟨i, i + 1, true⟩ : StatusbarHandle).id ≠ 0 := by
      simp
    have hval : _IsValidStatusbarHandle
        (sbCreateIter cfg ss sink_h cfg.kMaxStatusbarHandles)
        ⟨i, i + 1, true⟩ = 0 :=
      ((validate_sb_cases _ ⟨i, i + 1, true⟩ _ hlen' hslot).1).mpr
        ⟨rfl, hidx, rfl, hne⟩
    have hD := destroyStatusbar_eq ss
      (sbCreateIter cfg ss sink_h cfg.kMaxStatusbarHandles) ⟨i, i + 1, true⟩
      (_newStatusbar cfg sink_h [1] [10] [[]] [[]] (i + 1)) hval hslot hsink
    refine ⟨_, hD, rfl, ?_⟩
    have hC2 := createStatusbar_eq cfg ss
      ⟨(sbCreateIter cfg ss sink_h cfg.kMaxStatusbarHandles).registry.set i
          (_clearedStatusbar false),
        ⟨i, 0, false⟩ :: (sbCreateIter cfg ss sink_h
          cfg.kMaxStatusbarHandles).free,
        (sbCreateIter cfg ss sink_h cfg.kMaxStatusbarHandles).idCount⟩
      ⟨i, 0, false⟩ sink_h [1] [10] [[]] [[]] hsink
      (by rw [invalid_flag_validate]; decide) (by simp)
    have hcap2 : ¬ usizeSub
        ((sbCreateIter cfg ss sink_h
          cfg.kMaxStatusbarHandles).registry.set i
            (_clearedStatusbar false)).length
        ((⟨i, 0, false⟩ : StatusbarHandle) :: (sbCreateIter cfg ss sink_h
          cfg.kMaxStatusbarHandles).free).length ≥
          cfg.kMaxStatusbarHandles := by
      rw [List.length_set, hKlen, List.length_cons, hKfree]
      simp only [List.length_nil]
      rw [usizeSub_eq _ 1 (by omega) (by omega)]
      omega
    rw [if_neg hcap2] at hC2
    dsimp only at hC2
    exact ⟨_, hC2, rfl⟩
  · -- (f) the first kMaxSinkHandles sink creations succeed
    intro n hn
    obtain ⟨hlen, hfree, hid, _⟩ := sinkCreateIter_inv n (le_of_lt hn)
    have hC := createSinkStdout_eq (sinkCreateIter n) default (-1)
      (default_sink_handle_invalid _) (by decide)
    have hcap : ¬ usizeSub (sinkCreateIter n).registry.length
        (sinkCreateIter n).free.length ≥ kMaxSinkHandles := by
      rw [hlen, hfree]
      simp only [List.length_nil]
      rw [usizeSub_eq n 0 (Nat.zero_le n) (by
        unfold kMaxSinkHandles at hn
        omega)]
      omega
    rw [if_neg hcap, hfree] at hC
    exact ⟨_, hC, rfl⟩
  · -- (g) the (kMaxSinkHandles+1)-th sink creation fails with -2
    have hC := createSinkStdout_eq (sinkCreateIter kMaxSinkHandles) default
      (-1) (default_sink_handle_invalid _) (by decide)
    have hcap : usizeSub (sinkCreateIter kMaxSinkHandles).registry.length
        (sinkCreateIter kMaxSinkHandles).free.length ≥ kMaxSinkHandles := by
      rw [hSlen, hSfree]
      simp only [List.length_nil]
      rw [usizeSub_eq _ 0 (Nat.zero_le _) (by decide)]
      omega
    rw [if_pos hcap] at hC
    exact ⟨_, hC, rfl⟩
  · -- (h) destroy any one live sink handle, then creation succeeds again
    intro env i hi
    have hslot := hSslots i hi
    revert hslot
    generalize sinkCreateIter kMaxSinkHandles = S at hSlen hSfree
    intro hslot
    have hslen20 : S.registry.length ≤ sizeMax := by
      rw [hSlen]
      decide
    have hidx : (⟨i, i + 1, true⟩ : SinkHandle).idx < S.registry.length := by
      rw [hSlen]
      exact hi
    have hval : IsValidSinkHandle S ⟨i, i + 1, true⟩ = .ok 0 :=
      ((validate_sink_cases _ ⟨i, i + 1, true⟩ _ hslen20 hslot).1).mpr
        ⟨rfl, hidx, rfl, by simp⟩
    have hD := destroySink_eq env S ⟨i, i + 1, true⟩
      ⟨true, true, false, [], .kSinkStdout, stdoutFd, i + 1⟩
      hval hslot (fun hcon => Bool.noConfusion hcon.1)
    refine ⟨_, hD, rfl, ?_⟩
    have hC2 := createSinkStdout_eq
      ⟨(S.registry.set i none).set i
          (some { (⟨true, true, false, [], .kSinkStdout, stdoutFd,
              i + 1⟩ : Sink) with
            out := false, ownedFile := false, type := .kSinkInvalid,
            fd := -1, id := 0 }),
        ⟨i, 0, false⟩ :: S.free, S.idCount⟩
      ⟨i, 0, false⟩ (-1) (invalid_flag_sink_validate _ i 0) (by decide)
    have hcap2 : ¬ usizeSub
        ((S.registry.set i none).set i
          (some { (⟨true, true, false, [], .kSinkStdout, stdoutFd,
              i + 1⟩ : Sink) with
            out := false, ownedFile := false, type := .kSinkInvalid,
            fd := -1, id := 0 })).length
        ((⟨i, 0, false⟩ : SinkHandle) :: S.free).length ≥
          kMaxSinkHandles := by
      rw [List.length_set, List.length_set, hSlen, List.length_cons, hSfree]
      simp only [List.length_nil]
      rw [usizeSub_eq _ 1 (by decide) (by decide)]
      decide
    rw [if_neg hcap2] at hC2
    dsimp only at hC2
    have hslot2 : ((S.registry.set i none).set i
          (some { (⟨true, true, false, [], .kSinkStdout, stdoutFd,
              i + 1⟩ : Sink) with
            out := false, ownedFile := false, type := .kSinkInvalid,
            fd := -1, id := 0 })).get? i =
        some (some { (⟨true, true, false, [], .kSinkStdout, stdoutFd,
            i + 1⟩ : Sink) with
          out := false, ownedFile := false, type := .kSinkInvalid,
          fd := -1, id := 0 }) :=
      get?_set_self _ _ _ (by
        rw [List.length_set, hSlen]
        exact hi)
    rw [hslot2] at hC2
    dsimp only at hC2
    exact ⟨_, hC2, rfl⟩

/-! ## Handle lifecycle (C5) -/

/-- Inversion for `CreateStatusbarHandle`: a non-crashing call either
leaves the registry state unchanged (a refused call) or fills the head of
the free list, or appends a fresh slot; the latter two bump the id
counter. -/
lemma create_st_cases {cfg : Config} {ss : SinkState} {st : SbState}
    {h : StatusbarHandle} {sink_h : SinkHandle} {pos sizes : List Nat}
    {pres posts : List (List Nat)} {r : SbOpResult}
    (hr : CreateStatusbarHandle cfg ss st h sink_h pos sizes pres posts =
      .ok r) :
    r.st = st ∨
    (∃ fh rest, st.free = fh :: rest ∧
      r.st = ⟨st.registry.set fh.idx
          (_newStatusbar cfg sink_h pos sizes pres posts (_bumpId st.idCount)),
        rest, _bumpId st.idCount⟩) ∨
    (st.free = [] ∧
      r.st = ⟨st.registry ++
          [_newStatusbar cfg sink_h pos sizes pres posts (_bumpId st.idCount)],
        [], _bumpId st.idCount⟩) := by
  unfold CreateStatusbarHandle IsValidSinkHandleVerbose at hr
  obtain ⟨e, hv, hr⟩ := except_bind_ok hr
  simp only [hv, ok_bind, pure_ok] at hr
  by_cases h1 : e ≠ 0
  · rw [if_pos h1] at hr
    cases Except.ok.inj hr
    exact Or.inl rfl
  · rw [if_neg h1] at hr
    by_cases h2 : _IsValidStatusbarHandle st h = 0
    · rw [if_pos h2] at hr
      cases Except.ok.inj hr
      exact Or.inl rfl
    · rw [if_neg h2] at hr
      by_cases h3 : pos.length ≠ sizes.length ∨ sizes.length ≠ pres.length ∨
          pres.length ≠ posts.length
      · rw [if_pos h3] at hr
        cases Except.ok.inj hr
        exact Or.inl rfl
      · rw [if_neg h3] at hr
        by_cases h4 : usizeSub st.registry.length st.free.length ≥
            cfg.kMaxStatusbarHandles
        · rw [if_pos h4] at hr
          cases Except.ok.inj hr
          exact Or.inl rfl
        · rw [if_neg h4] at hr
          rw [if_neg h1] at hr
          cases hfr : st.free with
          | cons fh rest =>
              rw [hfr] at hr
              cases Except.ok.inj hr
              exact Or.inr (Or.inl ⟨fh, rest, rfl, rfl⟩)
          | nil =>
              rw [hfr] at hr
              cases Except.ok.inj hr
              exact Or.inr (Or.inr ⟨rfl, rfl⟩)

/-- Inversion for `DestroyStatusbarHandle`: a non-crashing call either
leaves the registry state unchanged or clears the slot at the handle's
index and pushes the invalidated handle onto the free list; the id counter
never changes. -/
lemma destroy_st_cases {ss : SinkState} {st : SbState} {h : StatusbarHandle}
    {r : SbOpResult} (hr : DestroyStatusbarHandle ss st h = .ok r) :
    r.st = st ∨
    ∃ sb, st.registry.get? h.idx = some sb ∧
      r.st = ⟨st.registry.set h.idx (_clearedStatusbar sb.error_reported),
        ⟨h.idx, 0, false⟩ :: st.free, st.idCount⟩ := by
  unfold DestroyStatusbarHandle IsValidSinkHandleVerbose at hr
  by_cases h1 : _IsValidStatusbarHandle st h ≠ 0
  · rw [if_pos h1] at hr
    cases Except.ok.inj hr
    exact Or.inl rfl
  · rw [if_neg h1] at hr
    cases hsl : st.registry.get? h.idx with
    | none =>
        rw [hsl] at hr
        simp only [ok_bind, pure_ok] at hr
        exact Except.noConfusion hr
    | some sb =>
        rw [hsl] at hr
        simp only [ok_bind, pure_ok] at hr
        obtain ⟨e, hv, hr⟩ := except_bind_ok hr
        simp only [hv, ok_bind, pure_ok] at hr
        by_cases h2 : e ≠ 0
        · rw [if_pos h2] at hr
          cases Except.ok.inj hr
          exact Or.inl rfl
        · rw [if_neg h2, if_neg h2] at hr
          cases Except.ok.inj hr
          exact Or.inr ⟨sb, rfl, rfl⟩

/-- Inversion for `LogV`: a non-crashing call either leaves the registry
state unchanged or replaces the registry with the outcome of the full
redraw loop; free list and id counter never change. -/
lemma logv_st_cases {cfg : Config} {env : Env} {ss : SinkState}
    {st : SbState} {level : LogLevel} {fn msg : List Nat}
    {sink_h : SinkHandle} {r : LogResult}
    (hr : LogV cfg env ss st level fn msg sink_h = .ok r) :
    r.st = st ∨
    ∃ tty : Bool,
      r.st = ⟨(_redrawAllAux env tty 0 st.registry).2.1, st.free,
        st.idCount⟩ := by
  unfold LogV IsValidSinkHandleVerbose at hr
  by_cases h1 : level.toNat > cfg.kLogLevel
  · rw [if_pos h1] at hr
    cases Except.ok.inj hr
    exact Or.inl rfl
  · rw [if_neg h1] at hr
    simp only [ok_bind, pure_ok] at hr
    obtain ⟨e, hv, hr⟩ := except_bind_ok hr
    by_cases h2 : e ≠ 0
    · rw [if_pos h2] at hr
      cases Except.ok.inj hr
      exact Or.inl rfl
    · rw [if_neg h2] at hr
      obtain ⟨tty, htty, hr⟩ := except_bind_ok hr
      cases hred : (_redrawAllAux env tty 0 st.registry).1 with
      | some ev =>
          rw [hred] at hr
          cases Except.ok.inj hr
          exact Or.inr ⟨tty, rfl⟩
      | none =>
          rw [hred] at hr
          cases Except.ok.inj hr
          exact Or.inr ⟨tty, rfl⟩

/-- `_DrawStatusbarComponent` either leaves the by-reference spinner index
untouched (the early-out error paths) or reduces it modulo 4. -/
lemma draw_spin_cases (env : Env) (ol tty : Bool) (p : ℚ) (w : Nat)
    (pre post : List Nat) (si : Nat) :
    (_DrawStatusbarComponent env ol tty p w pre post si).spin = si ∨
    (_DrawStatusbarComponent env ol tty p w pre post si).spin = si % 4 := by
  unfold _DrawStatusbarComponent
  dsimp only
  split_ifs <;> first
    | exact Or.inl rfl
    | exact Or.inr rfl

/-- Two redraw spinner steps compose to one. -/
lemma spinStep_trans {a b c : Option Nat}
    (h1 : b = a ∨ b = a.map (· % 4))
    (h2 : c = b ∨ c = b.map (· % 4)) :
    c = a ∨ c = a.map (· % 4) := by
  have hmm : (a.map (· % 4)).map (· % 4) = a.map (· % 4) := by
    cases a with
    | none => rfl
    | some v => exact congrArg some (Nat.mod_mod_of_dvd v (dvd_refl 4))
  rcases h1 with rfl | rfl <;> rcases h2 with rfl | rfl
  · exact Or.inl rfl
  · exact Or.inr rfl
  · exact Or.inr rfl
  · exact Or.inr hmm

lemma slotRedrawDiff_refl (sb : Statusbar) : _SlotRedrawDiff sb sb :=
  ⟨rfl, rfl, rfl, rfl, rfl, rfl, rfl, fun hq => hq, fun _ => Or.inl rfl⟩

lemma slotRedrawDiff_trans {a b c : Statusbar}
    (d1 : _SlotRedrawDiff a b) (d2 : _SlotRedrawDiff b c) :
    _SlotRedrawDiff a c := by
  obtain ⟨e1, e2, e3, e4, e5, e6, e7, e8, e9⟩ := d1
  obtain ⟨f1, f2, f3, f4, f5, f6, f7, f8, f9⟩ := d2
  exact ⟨f1.trans e1, f2.trans e2, f3.trans e3, f4.trans e4, f5.trans e5,
    f6.trans e6, f7.trans e7, fun hq => f8 (e8 hq),
    fun j => spinStep_trans (e9 j) (f9 j)⟩

/-- The store-back step of the redraw loop is a `_SlotRedrawDiff`. -/
lemma store_slotDiff (env : Env) (tty : Bool) (sb : Statusbar) (j : Nat) :
    _SlotRedrawDiff sb (_redrawStore env tty sb j) := by
  refine ⟨rfl, rfl, rfl, rfl, rfl, rfl, rfl, fun hq => hq, ?_⟩
  intro j0
  show (sb.spin_idxs.set j (_redrawDraw env tty sb j).spin).get? j0 =
      sb.spin_idxs.get? j0 ∨
    (sb.spin_idxs.set j (_redrawDraw env tty sb j).spin).get? j0 =
      (sb.spin_idxs.get? j0).map (· % 4)
  by_cases hj : j = j0
  · subst hj
    by_cases hlen : j < sb.spin_idxs.length
    · rw [get?_set_self _ _ _ hlen]
      cases hv : sb.spin_idxs.get? j with
      | none => exact absurd (List.get?_eq_none.mp hv) (not_le.mpr hlen)
      | some v =>
          have hgd : sb.spin_idxs.getD j 0 = v := by
            rw [List.getD_eq_getElem?_getD, ← List.get?_eq_getElem?, hv]
            rfl
          rcases draw_spin_cases env true tty (sb.percentages.getD j 0)
              (sb.bar_sizes.getD j 0) (sb.prefixes.getD j [])
              (sb.postfixes.getD j []) (sb.spin_idxs.getD j 0) with hs | hs
          · left
            show some (_redrawDraw env tty sb j).spin = some v
            rw [show (_redrawDraw env tty sb j).spin = sb.spin_idxs.getD j 0
              from hs, hgd]
          · right
            show some (_redrawDraw env tty sb j).spin = some (v % 4)
            rw [show (_redrawDraw env tty sb j).spin =
              sb.spin_idxs.getD j 0 % 4 from hs, hgd]
    · left
      have h1 : (sb.spin_idxs.set j (_redrawDraw env tty sb j).spin).get? j =
          none :=
        List.get?_eq_none.mpr (by rw [List.length_set]; omega)
      have h2 : sb.spin_idxs.get? j = none :=
        List.get?_eq_none.mpr (by omega)
      rw [h1, h2]
  · left
    rw [List.get?_set_ne _ _ hj]

/-- The inner redraw loop of `LogV` is a `_SlotRedrawDiff`. -/
lemma redrawOne_slotDiff (env : Env) (tty : Bool) (js : List Nat)
    (sb : Statusbar) :
    _SlotRedrawDiff sb (_redrawOneAux env tty js sb).2.1 := by
  induction js generalizing sb with
  | nil => exact slotRedrawDiff_refl sb
  | cons j js ih =>
      unfold _redrawOneAux
      split_ifs with hcond
      · obtain ⟨f1, f2, f3, f4, f5, f6, f7, f8, f9⟩ :=
          store_slotDiff env tty sb j
        exact ⟨f1, f2, f3, f4, f5, f6, f7, fun _ => rfl, f9⟩
      · exact slotRedrawDiff_trans (store_slotDiff env tty sb j)
          (ih (_redrawStore env tty sb j))

/-- The outer redraw loop of `LogV` relates every output slot to its input
slot by `_SlotRedrawDiff`. -/
lemma redrawAll_slotDiff (env : Env) (tty : Bool) :
    ∀ (reg : List Statusbar) (i k : Nat) (sb2 : Statusbar),
      (_redrawAllAux env tty i reg).2.1.get? k = some sb2 →
      ∃ sb1, reg.get? k = some sb1 ∧ _SlotRedrawDiff sb1 sb2 := by
  intro reg
  induction reg with
  | nil =>
      intro i k sb2 h
      simp [_redrawAllAux] at h
  | cons sb rest ih =>
      intro i k sb2 h
      unfold _redrawAllAux at h
      cases hm :
          (_redrawOneAux env tty (List.range sb.positions.length) sb).1 with
      | some e =>
          rw [hm] at h
          cases k with
          | zero =>
              cases Option.some.inj h
              exact ⟨sb, rfl, redrawOne_slotDiff env tty _ sb⟩
          | succ k => exact ⟨sb2, h, slotRedrawDiff_refl sb2⟩
      | none =>
          rw [hm] at h
          cases k with
          | zero =>
              cases Option.some.inj h
              exact ⟨sb, rfl, redrawOne_slotDiff env tty _ sb⟩
          | succ k => exact ih (i + 1) k sb2 h

lemma onlyDiff_refl (st : SbState) : _RedrawOnlyDiff st st :=
  ⟨rfl, rfl, rfl, fun _ sb2 h => ⟨sb2, h, slotRedrawDiff_refl sb2⟩⟩

/-- The inner redraw loop never changes a statusbar's id. -/
lemma redrawOne_id (env : Env) (tty : Bool) (js : List Nat) (sb : Statusbar) :
    ((_redrawOneAux env tty js sb).2.1).id = sb.id := by
  induction js generalizing sb with
  | nil => rfl
  | cons j js ih =>
      unfold _redrawOneAux
      split_ifs with hcond
      · rfl
      · exact (ih (_redrawStore env tty sb j)).trans rfl

/-- The outer redraw loop preserves the registry's length and every slot's
id. -/
lemma redrawAll_preserve (env : Env) (tty : Bool) :
    ∀ (reg : List Statusbar) (i : Nat),
      (_redrawAllAux env tty i reg).2.1.length = reg.length ∧
      ∀ k : Nat,
        ((_redrawAllAux env tty i reg).2.1.get? k).map Statusbar.id =
          (reg.get? k).map Statusbar.id := by
  intro reg
  induction reg with
  | nil => exact fun i => ⟨rfl, fun k => rfl⟩
  | cons sb rest ih =>
      intro i
      unfold _redrawAllAux
      cases hm :
          (_redrawOneAux env tty (List.range sb.positions.length) sb).1 with
      | some e =>
          refine ⟨rfl, ?_⟩
          intro k
          cases k with
          | zero =>
              show some (_redrawOneAux env tty
                (List.range sb.positions.length) sb).2.1.id = some sb.id
              rw [redrawOne_id]
          | succ k => rfl
      | none =>
          refine ⟨?_, ?_⟩
          · show (_redrawAllAux env tty (i + 1) rest).2.1.length + 1 =
              rest.length + 1
            rw [(ih (i + 1)).1]
          · intro k
            cases k with
            | zero =>
                show some (_redrawOneAux env tty
                  (List.range sb.positions.length) sb).2.1.id = some sb.id
                rw [redrawOne_id]
            | succ k => exact (ih (i + 1)).2 k

/-- `LogV`'s whole redraw pass is a `_RedrawOnlyDiff`. -/
lemma redrawAll_onlyDiff (env : Env) (tty : Bool) (st : SbState) :
    _RedrawOnlyDiff st
      ⟨(_redrawAllAux env tty 0 st.registry).2.1, st.free, st.idCount⟩ :=
  ⟨rfl, rfl, (redrawAll_preserve env tty st.registry 0).1,
    fun k sb2 h => redrawAll_slotDiff env tty st.registry 0 k sb2 h⟩

/-- Inversion for `_logEffect`: the embedded log call either leaves the
state alone (gated level or refused sink) or applies the full redraw
pass. -/
lemma logEffect_st_cases {cfg : Config} {env : Env} {ss : SinkState}
    {st : SbState} {level : LogLevel} {fn msg : List Nat}
    {sink_h : SinkHandle} {st2 : SbState}
    (hr : _logEffect cfg env ss st level fn msg sink_h = .ok st2) :
    st2 = st ∨
    ∃ tty : Bool,
      st2 = ⟨(_redrawAllAux env tty 0 st.registry).2.1, st.free,
        st.idCount⟩ := by
  unfold _logEffect at hr
  obtain ⟨r, hLv, hr⟩ := except_bind_ok hr
  cases Except.ok.inj hr
  rcases logv_st_cases hLv with hst | ⟨tty, hst⟩
  · exact Or.inl hst
  · exact Or.inr ⟨tty, hst⟩

/-- The embedded log call changes the state by at most a redraw pass. -/
lemma logEffect_onlyDiff {cfg : Config} {env : Env} {ss : SinkState}
    {st : SbState} {level : LogLevel} {fn msg : List Nat}
    {sink_h : SinkHandle} {st2 : SbState}
    (hr : _logEffect cfg env ss st level fn msg sink_h = .ok st2) :
    _RedrawOnlyDiff st st2 := by
  rcases logEffect_st_cases hr with rfl | ⟨tty, rfl⟩
  · exact onlyDiff_refl _
  · exact redrawAll_onlyDiff env tty _

lemma sameIds_refl (st : SbState) : _SameIds st st :=
  ⟨rfl, rfl, rfl, fun _ => rfl⟩

lemma sameIds_trans {a b c : SbState} (h1 : _SameIds a b)
    (h2 : _SameIds b c) : _SameIds a c :=
  ⟨h2.1.trans h1.1, h2.2.1.trans h1.2.1, h2.2.2.1.trans h1.2.2.1,
    fun k => (h2.2.2.2 k).trans (h1.2.2.2 k)⟩

lemma sameIds_redraw (env : Env) (tty : Bool) (st : SbState) :
    _SameIds st
      ⟨(_redrawAllAux env tty 0 st.registry).2.1, st.free, st.idCount⟩ :=
  ⟨rfl, rfl, (redrawAll_preserve env tty st.registry 0).1,
    (redrawAll_preserve env tty st.registry 0).2⟩

lemma sameIds_of_logEffect {cfg : Config} {env : Env} {ss : SinkState}
    {st : SbState} {level : LogLevel} {fn msg : List Nat}
    {sink_h : SinkHandle} {st2 : SbState}
    (hr : _logEffect cfg env ss st level fn msg sink_h = .ok st2) :
    _SameIds st st2 := by
  rcases logEffect_st_cases hr with rfl | ⟨tty, rfl⟩
  · exact sameIds_refl _
  · exact sameIds_redraw env tty _

/-- Overwriting a slot with a statusbar of the same id keeps all ids. -/
lemma sameIds_set {st : SbState} {i : Nat} {sb sbN : Statusbar}
    (hsl : st.registry.get? i = some sb) (hid : sbN.id = sb.id) :
    _SameIds st { st with registry := st.registry.set i sbN } := by
  have hilt : i < st.registry.length := (List.get?_eq_some.mp hsl).1
  refine ⟨rfl, rfl, List.length_set st.registry i sbN, ?_⟩
  intro k
  by_cases hk : i = k
  · subst hk
    show ((st.registry.set i sbN).get? i).map Statusbar.id =
      (st.registry.get? i).map Statusbar.id
    rw [get?_set_self _ _ _ hilt, hsl]
    show some sbN.id = some sb.id
    rw [hid]
  · show ((st.registry.set i sbN).get? k).map Statusbar.id =
      (st.registry.get? k).map Statusbar.id
    rw [List.get?_set_ne _ _ hk]

/-- Inversion for `UpdateStatusbar` at the id level: every non-crashing
call keeps the free list, the id counter, the registry length and all slot
ids — the possible mutations (the target slot's payload and the embedded
log redraw) never touch ids. -/
lemma update_sameIds {cfg : Config} {env : Env} {ss : SinkState}
    {st : SbState} {h : StatusbarHandle} {idx : Nat} {p : ℚ}
    {r : UpdateResult}
    (hr : UpdateStatusbar cfg env ss st h idx p = .ok r) :
    _SameIds st r.st := by
  unfold UpdateStatusbar IsValidSinkHandleVerbose at hr
  cases hsl : st.registry.get? h.idx with
  | none =>
      rw [hsl] at hr
      exact Except.noConfusion hr
  | some sb =>
      rw [hsl] at hr
      simp only [ok_bind, pure_ok] at hr
      obtain ⟨e, hv, hr⟩ := except_bind_ok hr
      simp only [hv, ok_bind, pure_ok] at hr
      by_cases h1 : e ≠ 0
      · rw [if_pos h1] at hr
        cases Except.ok.inj hr
        exact sameIds_refl st
      · rw [if_neg h1, if_neg h1] at hr
        by_cases h2 : _IsValidStatusbarHandle st h ≠ 0
        · rw [if_pos h2] at hr
          obtain ⟨st2, hef2, hr⟩ := except_bind_ok hr
          obtain ⟨st3, hef3, hr⟩ := except_bind_ok hr
          cases Except.ok.inj hr
          exact sameIds_trans (sameIds_of_logEffect hef2)
            (sameIds_of_logEffect hef3)
        · rw [if_neg h2] at hr
          by_cases h3 : p > 100 ∨ p < 0
          · rw [if_pos h3] at hr
            obtain ⟨st2, hef2, hr⟩ := except_bind_ok hr
            cases Except.ok.inj hr
            exact sameIds_of_logEffect hef2
          · rw [if_neg h3] at hr
            by_cases h4 : idx ≥ sb.percentages.length
            · rw [if_pos h4] at hr
              obtain ⟨st2, hef2, hr⟩ := except_bind_ok hr
              cases Except.ok.inj hr
              exact sameIds_of_logEffect hef2
            · rw [if_neg h4] at hr
              obtain ⟨tty, htty, hr⟩ := except_bind_ok hr
              by_cases h5 : (_DrawStatusbarComponent env true tty p
                    (sb.bar_sizes.getD idx 0) (sb.prefixes.getD idx [])
                    (sb.postfixes.getD idx [])
                    (sb.spin_idxs.getD idx 0 + 1)).err ≠ 0 ∧
                  sb.error_reported = false
              · rw [if_pos h5] at hr
                obtain ⟨st2, hef2, hr⟩ := except_bind_ok hr
                cases Except.ok.inj hr
                have hmid := sameIds_set hsl
                  (show ({ sb with
                      percentages := sb.percentages.set idx p
                      spin_idxs := sb.spin_idxs.set idx
                        (_DrawStatusbarComponent env true tty p
                          (sb.bar_sizes.getD idx 0) (sb.prefixes.getD idx [])
                          (sb.postfixes.getD idx [])
                          (sb.spin_idxs.getD idx 0 + 1)).spin
                      error_reported := true } : Statusbar).id = sb.id
                    from rfl)
                exact sameIds_trans hmid (sameIds_of_logEffect hef2)
              · rw [if_neg h5] at hr
                cases Except.ok.inj hr
                exact sameIds_set hsl rfl

/-- Facts recoverable from a `Success` verdict of the handle check. -/
lemma validate_zero_facts {st : SbState} {h : StatusbarHandle}
    (hvalid : _IsValidStatusbarHandle st h = 0) :
    h.valid = true ∧ h.idx < st.registry.length ∧ h.idx ≠ sizeMax ∧
      h.id ≠ 0 ∧
      ∀ sb : Statusbar, st.registry.get? h.idx = some sb → h.id = sb.id := by
  unfold _IsValidStatusbarHandle at hvalid
  by_cases h1 : h.valid = false
  · rw [if_pos h1] at hvalid
    exact absurd hvalid (by decide)
  · rw [if_neg h1] at hvalid
    have hv : h.valid = true := by
      revert h1
      cases h.valid <;> simp
    by_cases h2 : h.idx ≥ st.registry.length ∨ h.idx = sizeMax
    · rw [if_pos h2] at hvalid
      exact absurd hvalid (by decide)
    · rw [if_neg h2] at hvalid
      push_neg at h2
      cases hsl : st.registry.get? h.idx with
      | none =>
          rw [hsl] at hvalid
          dsimp only at hvalid
          exact absurd hvalid (by decide)
      | some sb =>
          rw [hsl] at hvalid
          dsimp only at hvalid
          by_cases h3 : h.id = sb.id
          · rw [if_neg (not_not.mpr h3)] at hvalid
            by_cases h4 : h.id = 0
            · rw [if_pos h4] at hvalid
              exact absurd hvalid (by decide)
            · refine ⟨hv, h2.1, h2.2, h4, ?_⟩
              intro sb2 hsb2
              cases Option.some.inj hsb2
              exact h3
          · rw [if_pos h3] at hvalid
            exact absurd hvalid (by decide)

/-- A handle check succeeds on a state whose slot at the handle's index
carries the handle's (nonzero) id. -/
lemma validate_zero_of {st : SbState} {h : StatusbarHandle} {sb : Statusbar}
    (hv : h.valid = true) (hidx : h.idx < st.registry.length)
    (hsz : h.idx ≠ sizeMax) (hsl : st.registry.get? h.idx = some sb)
    (hid : h.id = sb.id) (hid0 : h.id ≠ 0) :
    _IsValidStatusbarHandle st h = 0 := by
  unfold _IsValidStatusbarHandle
  rw [if_neg (by rw [hv]; exact fun e => Bool.noConfusion e),
    if_neg (by rw [not_or]; exact ⟨not_le.mpr hidx, hsz⟩), hsl]
  dsimp only
  rw [if_neg (not_not.mpr hid), if_neg hid0]

/-- On any state whose slot at the handle's index avoids the handle's id
(`SlotAvoids`), a stale handle with a nonzero id bounded by `A` fails the
check with `-3` (IdMismatch): it stays invalid. -/
lemma validate_stale {st : SbState} {h : StatusbarHandle} {A : Nat}
    (hv : h.valid = true) (hid0 : h.id ≠ 0) (hidA : h.id ≤ A)
    (hsz : h.idx ≠ sizeMax) (hs : SlotAvoids st h A) :
    _IsValidStatusbarHandle st h = -3 := by
  obtain ⟨hA, hidx, hslot⟩ := hs
  unfold _IsValidStatusbarHandle
  rw [if_neg (by rw [hv]; exact fun e => Bool.noConfusion e),
    if_neg (by rw [not_or]; exact ⟨not_le.mpr hidx, hsz⟩)]
  cases hsl : st.registry.get? h.idx with
  | none => exact absurd (List.get?_eq_none.mp hsl) (not_le.mpr hidx)
  | some sb =>
      have hne : h.id ≠ sb.id := by
        rcases hslot sb hsl with h0 | hgt
        · rw [h0]
          exact hid0
        · omega
      dsimp only
      rw [if_pos hne]

/-- One public operation preserves `SlotAvoids` (as long as the id counter
cannot wrap) and bumps the id counter by at most one. -/
lemma applySbOp_slotAvoids (cfg : Config) (ss : SinkState) (st : SbState)
    (op : SbOp) (H : StatusbarHandle) (A : Nat)
    (hw : st.idCount + 1 < uintMax) (hinv : SlotAvoids st H A) :
    SlotAvoids (applySbOp cfg ss st op) H A ∧
      (applySbOp cfg ss st op).idCount ≤ st.idCount + 1 := by
  obtain ⟨hA, hidx, hslot⟩ := hinv
  have hb := bumpId_eq st.idCount hw
  cases op with
  | createOp h sink_h pos sizes pres posts =>
      unfold applySbOp
      dsimp only
      cases hc : CreateStatusbarHandle cfg ss st h sink_h pos sizes pres posts
        with
      | error e => exact ⟨⟨hA, hidx, hslot⟩, Nat.le_succ st.idCount⟩
      | ok r =>
          dsimp only
          rcases create_st_cases hc with hst | ⟨fh, rest, hfr, hst⟩ |
            ⟨hfr, hst⟩
          · rw [hst]
            exact ⟨⟨hA, hidx, hslot⟩, by omega⟩
          · rw [hst]
            refine ⟨⟨by dsimp only; omega, ?_, ?_⟩, by dsimp only; omega⟩
            · show H.idx < (st.registry.set fh.idx _).length
              rw [List.length_set]
              exact hidx
            · intro sb hsb
              by_cases hfi : fh.idx = H.idx
              · rw [← hfi] at hsb
                rw [show (⟨st.registry.set fh.idx
                      (_newStatusbar cfg sink_h pos sizes pres posts
                        (_bumpId st.idCount)), rest,
                      _bumpId st.idCount⟩ : SbState).registry.get? fh.idx =
                    some (_newStatusbar cfg sink_h pos sizes pres posts
                      (_bumpId st.idCount)) from
                    get?_set_self _ _ _ (by rw [hfi]; exact hidx)] at hsb
                cases Option.some.inj hsb
                right
                show A < _bumpId st.idCount
                omega
              · rw [show (⟨st.registry.set fh.idx
                      (_newStatusbar cfg sink_h pos sizes pres posts
                        (_bumpId st.idCount)), rest,
                      _bumpId st.idCount⟩ : SbState).registry.get? H.idx =
                    st.registry.get? H.idx from
                    List.get?_set_ne _ _ hfi] at hsb
                exact hslot sb hsb
          · rw [hst]
            refine ⟨⟨by dsimp only; omega, ?_, ?_⟩, by dsimp only; omega⟩
            · show H.idx < (st.registry ++ [_]).length
              rw [List.length_append]
              omega
            · intro sb hsb
              rw [show (⟨st.registry ++
                    [_newStatusbar cfg sink_h pos sizes pres posts
                      (_bumpId st.idCount)], [],
                    _bumpId st.idCount⟩ : SbState).registry.get? H.idx =
                  st.registry.get? H.idx from List.get?_append hidx] at hsb
              exact hslot sb hsb
  | destroyOp h =>
      unfold applySbOp
      dsimp only
      cases hc : DestroyStatusbarHandle ss st h with
      | error e => exact ⟨⟨hA, hidx, hslot⟩, Nat.le_succ st.idCount⟩
      | ok r =>
          dsimp only
          rcases destroy_st_cases hc with hst | ⟨sb0, hsb0, hst⟩
          · rw [hst]
            exact ⟨⟨hA, hidx, hslot⟩, by omega⟩
          · rw [hst]
            refine ⟨⟨hA, ?_, ?_⟩, by dsimp only; omega⟩
            · show H.idx < (st.registry.set h.idx _).length
              rw [List.length_set]
              exact hidx
            · intro sb hsb
              by_cases hfi : h.idx = H.idx
              · rw [← hfi] at hsb
                rw [show (⟨st.registry.set h.idx
                      (_clearedStatusbar sb0.error_reported),
                      ⟨h.idx, 0, false⟩ :: st.free,
                      st.idCount⟩ : SbState).registry.get? h.idx =
                    some (_clearedStatusbar sb0.error_reported) from
                    get?_set_self _ _ _ (by rw [hfi]; exact hidx)] at hsb
                cases Option.some.inj hsb
                exact Or.inl rfl
              · rw [show (⟨st.registry.set h.idx
                      (_clearedStatusbar sb0.error_reported),
                      ⟨h.idx, 0, false⟩ :: st.free,
                      st.idCount⟩ : SbState).registry.get? H.idx =
                    st.registry.get? H.idx from
                    List.get?_set_ne _ _ hfi] at hsb
                exact hslot sb hsb
  | updateOp env h idx p =>
      unfold applySbOp
      dsimp only
      cases hc : UpdateStatusbar cfg env ss st h idx p with
      | error e => exact ⟨⟨hA, hidx, hslot⟩, Nat.le_succ st.idCount⟩
      | ok r =>
          dsimp only
          obtain ⟨hfree2, hidc2, hlen2, hids2⟩ := update_sameIds hc
          refine ⟨⟨by omega, by omega, ?_⟩, by omega⟩
          intro sb hsb
          have hk := hids2 H.idx
          rw [hsb] at hk
          cases hsl0 : st.registry.get? H.idx with
          | none =>
              rw [hsl0] at hk
              exact absurd hk (by simp)
          | some sb0 =>
              rw [hsl0] at hk
              have hide : sb.id = sb0.id := by
                simpa using hk
              rw [hide]
              exact hslot sb0 hsl0
  | logOp env level fn msg sink_h =>
      unfold applySbOp
      dsimp only
      cases hc : LogV cfg env ss st level fn msg sink_h with
      | error e => exact ⟨⟨hA, hidx, hslot⟩, Nat.le_succ st.idCount⟩
      | ok r =>
          dsimp only
          rcases logv_st_cases hc with hst | ⟨tty, hst⟩
          · rw [hst]
            exact ⟨⟨hA, hidx, hslot⟩, by omega⟩
          · rw [hst]
            obtain ⟨hlen, hids⟩ := redrawAll_preserve env tty st.registry 0
            refine ⟨⟨hA, ?_, ?_⟩, by dsimp only; omega⟩
            · show H.idx < (_redrawAllAux env tty 0 st.registry).2.1.length
              rw [hlen]
              exact hidx
            · intro sb hsb
              have hk := hids H.idx
              rw [hsb] at hk
              cases hsl0 : st.registry.get? H.idx with
              | none =>
                  rw [hsl0] at hk
                  exact absurd hk (by simp)
              | some sb0 =>
                  rw [hsl0] at hk
                  have : sb.id = sb0.id := by
                    simpa using hk
                  rw [this]
                  exact hslot sb0 hsl0

/-- A whole sequence of public operations preserves `SlotAvoids`, provided
the id counter cannot wrap along the way. -/
lemma applySbOps_slotAvoids (cfg : Config) (ss : SinkState)
    (H : StatusbarHandle) (A : Nat) :
    ∀ (ops : List SbOp) (st : SbState),
      st.idCount + ops.length < uintMax → SlotAvoids st H A →
      SlotAvoids (applySbOps cfg ss st ops) H A := by
  intro ops
  induction ops with
  | nil => exact fun st _ hinv => hinv
  | cons op ops ih =>
      intro st hw hinv
      rw [List.length_cons] at hw
      obtain ⟨hinv2, hcount⟩ :=
        applySbOp_slotAvoids cfg ss st op H A (by omega) hinv
      exact ih (applySbOp cfg ss st op) (by omega) hinv2

/-- **C5.** Handle round-trip and slot reuse. (1) For valid creation
parameters (valid sink, invalid statusbar handle, matching parallel-array
lengths, capacity available, a well-formed free list and a registry below
the `size_t` limit), `Create` followed immediately by `Validate` returns
Success. (2) `Destroy` on a valid handle succeeds and the returned handle
fails `Validate` with `-1` (InvalidFlag) in *every* subsequent state.
(3) Destroying a handle `H` and creating a new statusbar yields a handle
that reuses `H`'s slot index — the most recently freed slot, LIFO — with a
strictly greater generation id. (4) The old `H` stays invalid forever
after: following the destruction, after *any* sequence of public
statusbar-registry operations (with ids never wrapping the 32-bit
counter), `Validate` on the stale `H` returns `-3`, never Success. -/
theorem handle_roundtrip_slot_reuse_stale_invalid (cfg : Config) :
    (∀ (ss : SinkState) (st : SbState) (h : StatusbarHandle)
        (sink_h : SinkHandle) (pos sizes : List Nat)
        (pres posts : List (List Nat)),
      IsValidSinkHandle ss sink_h = .ok 0 →
      _IsValidStatusbarHandle st h ≠ 0 →
      pos.length = sizes.length → sizes.length = pres.length →
      pres.length = posts.length →
      ¬ usizeSub st.registry.length st.free.length ≥
        cfg.kMaxStatusbarHandles →
      (∀ fh ∈ st.free, fh.idx < st.registry.length) →
      st.registry.length < sizeMax →
      ∃ r : SbOpResult,
        CreateStatusbarHandle cfg ss st h sink_h pos sizes pres posts =
          .ok r ∧ r.status = 0 ∧ _IsValidStatusbarHandle r.st r.h = 0) ∧
    (∀ (ss : SinkState) (st : SbState) (h : StatusbarHandle)
        (sb : Statusbar),
      _IsValidStatusbarHandle st h = 0 →
      st.registry.get? h.idx = some sb →
      IsValidSinkHandle ss sb.sink_handle = .ok 0 →
      ∃ r : SbOpResult, DestroyStatusbarHandle ss st h = .ok r ∧
        r.status = 0 ∧
        ∀ st2 : SbState, _IsValidStatusbarHandle st2 r.h = -1) ∧
    (∀ (ss : SinkState) (st : SbState) (h : StatusbarHandle)
        (sb : Statusbar) (sink_h : SinkHandle) (pos sizes : List Nat)
        (pres posts : List (List Nat)),
      _IsValidStatusbarHandle st h = 0 →
      st.registry.get? h.idx = some sb →
      IsValidSinkHandle ss sb.sink_handle = .ok 0 →
      IsValidSinkHandle ss sink_h = .ok 0 →
      pos.length = sizes.length → sizes.length = pres.length →
      pres.length = posts.length →
      usizeSub st.registry.length st.free.length ≤
        cfg.kMaxStatusbarHandles →
      st.free.length < st.registry.length →
      st.registry.length < sizeMax →
      st.idCount + 1 < uintMax →
      h.id ≤ st.idCount →
      ∃ rd rc : SbOpResult,
        DestroyStatusbarHandle ss st h = .ok rd ∧
        CreateStatusbarHandle cfg ss rd.st rd.h sink_h pos sizes pres
          posts = .ok rc ∧
        rc.status = 0 ∧ rc.h.idx = h.idx ∧ h.id < rc.h.id) ∧
    (∀ (ss : SinkState) (st : SbState) (h : StatusbarHandle)
        (sb : Statusbar) (ops : List SbOp),
      _IsValidStatusbarHandle st h = 0 →
      st.registry.get? h.idx = some sb →
      IsValidSinkHandle ss sb.sink_handle = .ok 0 →
      h.id ≤ st.idCount →
      st.idCount + ops.length < uintMax →
      ∀ rd : SbOpResult, DestroyStatusbarHandle ss st h = .ok rd →
        _IsValidStatusbarHandle (applySbOps cfg ss rd.st ops) h = -3) := by
  refine ⟨?_, ?_, ?_, ?_⟩
  · -- (1) create, then validate succeeds
    intro ss st h sink_h pos sizes pres posts hsink hinv hs1 hs2 hs3 hcap
      hfree hlen
    have hC := createStatusbar_eq cfg ss st h sink_h pos sizes pres posts
      hsink hinv (by push_neg; exact ⟨hs1, hs2, hs3⟩)
    rw [if_neg hcap] at hC
    cases hfr : st.free with
    | cons fh rest =>
        rw [hfr] at hC
        dsimp only at hC
        have hfidx : fh.idx < st.registry.length :=
          hfree fh (by rw [hfr]; exact List.mem_cons_self fh rest)
        refine ⟨_, hC, rfl, ?_⟩
        exact validate_zero_of rfl
          (by rw [List.length_set] at *; exact hfidx)
          (Nat.ne_of_lt (lt_trans hfidx hlen))
          (get?_set_self _ _ _ hfidx) rfl (bumpId_ne_zero st.idCount)
    | nil =>
        rw [hfr] at hC
        dsimp only at hC
        refine ⟨_, hC, rfl, ?_⟩
        exact validate_zero_of rfl
          (by rw [List.length_append]; exact Nat.lt_succ_self _)
          (Nat.ne_of_lt hlen)
          (List.get?_concat_length _ _) rfl (bumpId_ne_zero st.idCount)
  · -- (2) destroy, then validate fails with InvalidFlag everywhere
    intro ss st h sb hvalid hslot hsink
    have hD := destroyStatusbar_eq ss st h sb hvalid hslot hsink
    exact ⟨_, hD, rfl, fun st2 => invalid_flag_validate st2 h.idx 0⟩
  · -- (3) destroy, then create: LIFO slot reuse with a fresh, larger id
    intro ss st h sb sink_h pos sizes pres posts hvalid hslot hsinkb hsink
      hs1 hs2 hs3 hcap hflen hlen hw hidle
    have hD := destroyStatusbar_eq ss st h sb hvalid hslot hsinkb
    have hC := createStatusbar_eq cfg ss
      ⟨st.registry.set h.idx (_clearedStatusbar sb.error_reported),
        ⟨h.idx, 0, false⟩ :: st.free, st.idCount⟩
      ⟨h.idx, 0, false⟩ sink_h pos sizes pres posts hsink
      (by rw [invalid_flag_validate]; decide)
      (by push_neg; exact ⟨hs1, hs2, hs3⟩)
    have h64 : st.registry.length < 2 ^ 64 := by
      unfold sizeMax at hlen
      omega
    rw [usizeSub_eq _ _ (le_of_lt hflen) h64] at hcap
    have hcap2 : ¬ usizeSub
        (st.registry.set h.idx
          (_clearedStatusbar sb.error_reported)).length
        ((⟨h.idx, 0, false⟩ : StatusbarHandle) :: st.free).length ≥
          cfg.kMaxStatusbarHandles := by
      rw [List.length_set, List.length_cons]
      rw [usizeSub_eq _ _ (by omega) h64]
      omega
    rw [if_neg hcap2] at hC
    dsimp only at hC
    refine ⟨_, _, hD, hC, rfl, rfl, ?_⟩
    show h.id < _bumpId st.idCount
    rw [bumpId_eq st.idCount hw]
    omega
  · -- (4) the stale handle stays invalid after any operation sequence
    intro ss st h sb ops hvalid hslot hsink hidle hops rd hrd
    obtain ⟨hv, hidx, hsz, hid0, _⟩ := validate_zero_facts hvalid
    have hD := destroyStatusbar_eq ss st h sb hvalid hslot hsink
    rw [hD] at hrd
    cases Except.ok.inj hrd
    have hSA : SlotAvoids
        ⟨st.registry.set h.idx (_clearedStatusbar sb.error_reported),
          ⟨h.idx, 0, false⟩ :: st.free, st.idCount⟩ h st.idCount := by
      refine ⟨le_refl _, ?_, ?_⟩
      · show h.idx < (st.registry.set h.idx _).length
        rw [List.length_set]
        exact hidx
      · intro sb2 hsb2
        rw [show (⟨st.registry.set h.idx
              (_clearedStatusbar sb.error_reported),
              ⟨h.idx, 0, false⟩ :: st.free,
              st.idCount⟩ : SbState).registry.get? h.idx =
            some (_clearedStatusbar sb.error_reported) from
            get?_set_self _ _ _ hidx] at hsb2
        cases Option.some.inj hsb2
        exact Or.inl rfl
    have hrun := applySbOps_slotAvoids cfg ss h st.idCount ops
      ⟨st.registry.set h.idx (_clearedStatusbar sb.error_reported),
        ⟨h.idx, 0, false⟩ :: st.free, st.idCount⟩ hops hSA
    exact validate_stale hv hid0 hidle hsz hrun

/-- Helper for pointwise spinner reasoning: storing `(old+1) % 4` at `idx`
reads back as the mapped old value (a no-op when `idx` is out of range,
matching `List.set`). -/
lemma spin_set_get (sl : List Nat) (idx : Nat) :
    (sl.set idx ((sl.getD idx 0 + 1) % 4)).get? idx =
      (sl.get? idx).map (fun s0 => (s0 + 1) % 4) := by
  by_cases hlen : idx < sl.length
  · cases hv : sl.get? idx with
    | none => exact absurd (List.get?_eq_none.mp hv) (not_le.mpr hlen)
    | some v =>
        have hgd : sl.getD idx 0 = v := by
          rw [List.getD_eq_getElem?_getD, ← List.get?_eq_getElem?, hv]
          rfl
        rw [get?_set_self _ _ _ hlen, hgd]
        rfl
  · have h1 : (sl.set idx ((sl.getD idx 0 + 1) % 4)).get? idx = none :=
      List.get?_eq_none.mpr (by rw [List.length_set]; omega)
    have h2 : sl.get? idx = none := List.get?_eq_none.mpr (by omega)
    rw [h1, h2]
    rfl

/-- A second `% 4` pass is absorbed by an advanced-and-reduced spinner. -/
lemma map_spin_mod (o : Option Nat) :
    (o.map (fun s0 => (s0 + 1) % 4)).map (· % 4) =
      o.map (fun s0 => (s0 + 1) % 4) := by
  cases o with
  | none => rfl
  | some v => exact congrArg some (Nat.mod_mod_of_dvd (v + 1) (dvd_refl 4))

/-- Path equation for `UpdateStatusbar` once the handle and sink checks
pass: the percentage and index rejections run their `LogErr` (state
effect `_logEffect`) before returning `-7`/`-8`; the success path draws,
stores, and reports a draw failure at most once (through one more
`LogErr`). -/
lemma updateStatusbar_eq (cfg : Config) (env : Env) (ss : SinkState)
    (st : SbState) (h : StatusbarHandle) (idx : Nat) (p : ℚ)
    (sb : Statusbar) (s : Sink)
    (hslot : st.registry.get? h.idx = some sb)
    (hs : ss.registry.get? sb.sink_handle.idx = some (some s))
    (hsink : IsValidSinkHandle ss sb.sink_handle = .ok 0)
    (hvalid : _IsValidStatusbarHandle st h = 0) :
    UpdateStatusbar cfg env ss st h idx p =
      (if p > 100 ∨ p < 0 then
        _logEffect cfg env ss st .kLogLevelErr kFilenameBytes
          (strBytes "Failed to update statusbar: Invalid percentage.")
          sb.sink_handle >>= fun st2 => .ok ⟨-7, st2, false⟩
       else if idx ≥ sb.percentages.length then
        _logEffect cfg env ss st .kLogLevelErr kFilenameBytes
          (strBytes "Failed to update statusbar: Invalid bar index.")
          sb.sink_handle >>= fun st2 => .ok ⟨-8, st2, false⟩
       else
         let d := _DrawStatusbarComponent env true
           (if s.fd ≥ 0 then env.isTty else false) p (sb.bar_sizes.getD idx 0)
           (sb.prefixes.getD idx []) (sb.postfixes.getD idx [])
           (sb.spin_idxs.getD idx 0 + 1)
         let sb' : Statusbar :=
           { sb with percentages := sb.percentages.set idx p
                     spin_idxs := sb.spin_idxs.set idx d.spin }
         if d.err ≠ 0 ∧ sb.error_reported = false then
           _logEffect cfg env ss
             { st with registry :=
                 st.registry.set h.idx ({ sb' with error_reported := true }) }
             .kLogLevelErr kFilenameBytes
             (strBytes "draw failure on statusbar") sb.sink_handle >>=
             fun st2 => .ok ⟨0, st2, true⟩
         else
           .ok ⟨0, { st with registry := st.registry.set h.idx sb' },
             false⟩) := by
  unfold UpdateStatusbar IsValidSinkHandleVerbose
  simp only [hslot]
  rw [hsink, sinkIsTty_of_ok hsink hs, hvalid]
  rfl

/-- A log call through a validated sink cannot crash: it always returns a
state. -/
lemma logEffect_ok (cfg : Config) (env : Env) (ss : SinkState)
    (st0 : SbState) (level : LogLevel) (fn msg : List Nat)
    (sink_h : SinkHandle) (s : Sink)
    (hsink : IsValidSinkHandle ss sink_h = .ok 0)
    (hsl : ss.registry.get? sink_h.idx = some (some s)) :
    ∃ st2, _logEffect cfg env ss st0 level fn msg sink_h = .ok st2 := by
  unfold _logEffect
  by_cases hg : level.toNat > cfg.kLogLevel
  · refine ⟨st0, ?_⟩
    unfold LogV
    rw [if_pos hg]
    rfl
  · cases hab : (_redrawAllAux env (if s.fd ≥ 0 then env.isTty else false) 0
        st0.registry).1 with
    | none =>
        exact ⟨_, by
          rw [logv_eq_ok cfg env ss st0 level fn msg sink_h s hg hsink hsl
            hab]
          rfl⟩
    | some ec =>
        exact ⟨_, by
          rw [logv_eq_abort cfg env ss st0 level fn msg sink_h s ec hg hsink
            hsl hab]
          rfl⟩

/-- **C3 (counterexample).** The claim (spec §7(b)) says a rejected update
leaves the registry unchanged. It does not: the rejection path calls
`LogErr`, whose redraw loop runs over the registry; on an interactive sink
whose width query fails, each draw reports the fatal-class `-2`, so the
redraw sets the first statusbar's one-shot `error_reported` latch. The
`-7` rejection below returns a state whose slot 0 has the latch set while
the input state's slot 0 had it clear. -/
theorem update_rejection_mutates_counterexample :
    UpdateStatusbar cfgW envTty ssTwo stTwo ⟨0, 1, true⟩ 0 150 =
      .ok ⟨-7,
        ⟨[{ sbOnA with error_reported := true }, sbOnB], [], 2⟩, false⟩ ∧
    (stTwo.registry.get? 0).map Statusbar.error_reported = some false ∧
    (([{ sbOnA with error_reported := true }, sbOnB] :
        List Statusbar).get? 0).map Statusbar.error_reported = some true := by
  exact ⟨rfl, rfl, rfl⟩

/-- **C3 (amended).** `UpdateStatusbar` on a valid handle: a percentage
strictly outside `[0, 100]` is rejected with `-7` (InvalidPercentage) and
a bar index at or beyond the bar count with `-8` (IndexOOB); in both
rejection cases nothing is stored — the free list, id counter, registry
length, and every slot's sink handle, id, percentages, positions, bar
widths, prefixes and postfixes are kept — but the registry is not
untouched in general: the rejection path's error log redraws the bars,
which can only reduce spinner phases modulo 4 and set `error_reported`
latches (`_RedrawOnlyDiff`). When all checks pass, the call stores the
percentage in that bar's slot and advances that bar's spinner phase by
one modulo 4, keeping every other payload field of the record. -/
theorem update_percent_index_checks_and_mutation (cfg : Config) (env : Env)
    (ss : SinkState) (st : SbState) (h : StatusbarHandle) (idx : Nat)
    (p : ℚ) (sb : Statusbar) (s : Sink)
    (hslot : st.registry.get? h.idx = some sb)
    (hs : ss.registry.get? sb.sink_handle.idx = some (some s))
    (hsink : IsValidSinkHandle ss sb.sink_handle = .ok 0)
    (hvalid : _IsValidStatusbarHandle st h = 0) :
    ((p > 100 ∨ p < 0) →
      ∃ st2, UpdateStatusbar cfg env ss st h idx p = .ok ⟨-7, st2, false⟩ ∧
        _RedrawOnlyDiff st st2) ∧
    (0 ≤ p → p ≤ 100 → idx ≥ sb.percentages.length →
      ∃ st2, UpdateStatusbar cfg env ss st h idx p = .ok ⟨-8, st2, false⟩ ∧
        _RedrawOnlyDiff st st2) ∧
    (0 ≤ p → p ≤ 100 → idx < sb.percentages.length →
      ∃ r : UpdateResult, UpdateStatusbar cfg env ss st h idx p = .ok r ∧
        r.status = 0 ∧ r.st.free = st.free ∧ r.st.idCount = st.idCount ∧
        r.st.registry.length = st.registry.length ∧
        ∃ sbN, r.st.registry.get? h.idx = some sbN ∧
          sbN.percentages = sb.percentages.set idx p ∧
          sbN.spin_idxs.get? idx =
            (sb.spin_idxs.get? idx).map (fun s0 => (s0 + 1) % 4) ∧
          sbN.positions = sb.positions ∧ sbN.bar_sizes = sb.bar_sizes ∧
          sbN.prefixes = sb.prefixes ∧ sbN.postfixes = sb.postfixes ∧
          sbN.sink_handle = sb.sink_handle ∧ sbN.id = sb.id) := by
  have hidx : h.idx < st.registry.length := (List.get?_eq_some.mp hslot).1
  refine ⟨?_, ?_, ?_⟩
  · intro hgt
    rw [updateStatusbar_eq cfg env ss st h idx p sb s hslot hs hsink hvalid,
      if_pos hgt]
    obtain ⟨st2, hef⟩ := logEffect_ok cfg env ss st .kLogLevelErr
      kFilenameBytes
      (strBytes "Failed to update statusbar: Invalid percentage.")
      sb.sink_handle s hsink hs
    refine ⟨st2, ?_, logEffect_onlyDiff hef⟩
    rw [hef]
    rfl
  · intro h0 h1 hge
    have hg : ¬ (p > 100 ∨ p < 0) := by
      push_neg
      exact ⟨h1, h0⟩
    rw [updateStatusbar_eq cfg env ss st h idx p sb s hslot hs hsink hvalid,
      if_neg hg, if_pos hge]
    obtain ⟨st2, hef⟩ := logEffect_ok cfg env ss st .kLogLevelErr
      kFilenameBytes
      (strBytes "Failed to update statusbar: Invalid bar index.")
      sb.sink_handle s hsink hs
    refine ⟨st2, ?_, logEffect_onlyDiff hef⟩
    rw [hef]
    rfl
  · intro h0 h1 hlt
    have hg : ¬ (p > 100 ∨ p < 0) := by
      push_neg
      exact ⟨h1, h0⟩
    rw [updateStatusbar_eq cfg env ss st h idx p sb s hslot hs hsink hvalid,
      if_neg hg, if_neg (not_le.mpr hlt)]
    dsimp only
    rw [draw_spin env _ p _ _ _ _ hg]
    by_cases hl :
        (_DrawStatusbarComponent env true
            (if s.fd ≥ 0 then env.isTty else false) p
            (sb.bar_sizes.getD idx 0) (sb.prefixes.getD idx [])
            (sb.postfixes.getD idx []) (sb.spin_idxs.getD idx 0 + 1)).err ≠
          0 ∧ sb.error_reported = false
    · rw [if_pos hl]
      obtain ⟨st2, hef⟩ := logEffect_ok cfg env ss
        { st with registry :=
            (st.registry.set h.idx
              { sb with
                percentages := sb.percentages.set idx p
                spin_idxs :=
                  sb.spin_idxs.set idx ((sb.spin_idxs.getD idx 0 + 1) % 4)
                error_reported := true }) }
        .kLogLevelErr kFilenameBytes
        (strBytes "draw failure on statusbar") sb.sink_handle s hsink hs
      have hD := logEffect_onlyDiff hef
      obtain ⟨hfree, hidc, hlen, hslots⟩ := hD
      refine ⟨⟨0, st2, true⟩, by rw [hef]; rfl, rfl, hfree, hidc,
        hlen.trans (List.length_set st.registry h.idx _), ?_⟩
      have hlt2 : h.idx < st2.registry.length := by
        rw [hlen, List.length_set]
        exact hidx
      cases hsbN : st2.registry.get? h.idx with
      | none => exact absurd (List.get?_eq_none.mp hsbN) (not_le.mpr hlt2)
      | some sbN =>
          obtain ⟨sb1, hsb1, hdiff⟩ := hslots h.idx sbN hsbN
          rw [get?_set_self _ _ _ hidx] at hsb1
          cases Option.some.inj hsb1
          obtain ⟨g1, g2, g3, g4, g5, g6, g7, _, g9⟩ := hdiff
          refine ⟨sbN, rfl, g3.trans rfl, ?_, g4.trans rfl, g5.trans rfl,
            g6.trans rfl, g7.trans rfl, g1.trans rfl, g2.trans rfl⟩
          rcases g9 idx with hsp | hsp
          · rw [hsp]
            exact spin_set_get sb.spin_idxs idx
          · rw [hsp]
            show ((sb.spin_idxs.set idx
                ((sb.spin_idxs.getD idx 0 + 1) % 4)).get? idx).map (· % 4) =
              (sb.spin_idxs.get? idx).map (fun s0 => (s0 + 1) % 4)
            rw [spin_set_get sb.spin_idxs idx]
            exact map_spin_mod (sb.spin_idxs.get? idx)
    · rw [if_neg hl]
      refine ⟨⟨0,
        { st with registry :=
            (st.registry.set h.idx
              { sb with
                percentages := sb.percentages.set idx p
                spin_idxs :=
                  sb.spin_idxs.set idx
                    ((sb.spin_idxs.getD idx 0 + 1) % 4) }) }, false⟩,
        rfl, rfl, rfl, rfl, List.length_set st.registry h.idx _, ?_⟩
      refine ⟨_, get?_set_self _ _ _ hidx, rfl, ?_, rfl, rfl, rfl, rfl, rfl,
        rfl⟩
      exact spin_set_get sb.spin_idxs idx

/-- **C10.** Once the handle, percentage and index checks have passed,
`UpdateStatusbar` returns Success (0) for *every* configuration and
environment — truncation or width-query failure in the redraw never
reaches its return value; a draw failure is reported only when the
statusbar's `error_reported` latch is clear, and the report sets the
latch (so a statusbar reports at most once; the latch survives the
report's own embedded log redraw). `LogV`, in contrast, escalates a
critical draw failure into its own return value: when the redraw loop
aborts with code `ec`, the call returns `ec`, a negative status. -/
theorem update_swallows_draw_errors_log_escalates (ss : SinkState)
    (st : SbState) (h : StatusbarHandle) (idx : Nat) (p : ℚ) (sb : Statusbar)
    (s : Sink) (hslot : st.registry.get? h.idx = some sb)
    (hs : ss.registry.get? sb.sink_handle.idx = some (some s))
    (hsink : IsValidSinkHandle ss sb.sink_handle = .ok 0)
    (hvalid : _IsValidStatusbarHandle st h = 0)
    (h0 : 0 ≤ p) (h1 : p ≤ 100) (hlt : idx < sb.percentages.length) :
    (∀ (cfg : Config) (env : Env), ∃ r : UpdateResult,
      UpdateStatusbar cfg env ss st h idx p = .ok r ∧ r.status = 0 ∧
      (sb.error_reported = true → r.reported = false) ∧
      (r.reported = true → sb.error_reported = false ∧
        ∃ sbN : Statusbar, r.st.registry.get? h.idx = some sbN ∧
          sbN.error_reported = true)) ∧
    (∀ (cfg : Config) (env : Env) (level : LogLevel) (fn msg : List Nat)
        (sink_h : SinkHandle) (sL : Sink) (ec : Int),
      level.toNat ≤ cfg.kLogLevel →
      IsValidSinkHandle ss sink_h = .ok 0 →
      ss.registry.get? sink_h.idx = some (some sL) →
      (_redrawAllAux env (if sL.fd ≥ 0 then env.isTty else false) 0
          st.registry).1 = some ec →
      ∃ r' : LogResult, LogV cfg env ss st level fn msg sink_h = .ok r' ∧
        r'.status = ec ∧ ec < 0) := by
  have hg : ¬ (p > 100 ∨ p < 0) := by
    push_neg
    exact ⟨h1, h0⟩
  have hidx : h.idx < st.registry.length := (List.get?_eq_some.mp hslot).1
  constructor
  · intro cfg env
    rw [updateStatusbar_eq cfg env ss st h idx p sb s hslot hs hsink hvalid,
      if_neg hg, if_neg (not_le.mpr hlt)]
    dsimp only
    by_cases hl :
        (_DrawStatusbarComponent env true
            (if s.fd ≥ 0 then env.isTty else false) p
            (sb.bar_sizes.getD idx 0) (sb.prefixes.getD idx [])
            (sb.postfixes.getD idx []) (sb.spin_idxs.getD idx 0 + 1)).err ≠
          0 ∧ sb.error_reported = false
    · rw [if_pos hl]
      obtain ⟨st2, hef⟩ := logEffect_ok cfg env ss
        { st with registry :=
            (st.registry.set h.idx
              { sb with
                percentages := sb.percentages.set idx p
                spin_idxs := sb.spin_idxs.set idx
                  (_DrawStatusbarComponent env true
                    (if s.fd ≥ 0 then env.isTty else false) p
                    (sb.bar_sizes.getD idx 0) (sb.prefixes.getD idx [])
                    (sb.postfixes.getD idx [])
                    (sb.spin_idxs.getD idx 0 + 1)).spin
                error_reported := true }) }
        .kLogLevelErr kFilenameBytes
        (strBytes "draw failure on statusbar") sb.sink_handle s hsink hs
      have hD := logEffect_onlyDiff hef
      obtain ⟨hfree, hidc, hlen, hslots⟩ := hD
      refine ⟨⟨0, st2, true⟩, by rw [hef]; rfl, rfl, ?_, ?_⟩
      · intro hrep
        rw [hrep] at hl
        exact absurd hl.2 (by simp)
      · intro _
        refine ⟨hl.2, ?_⟩
        have hlt2 : h.idx < st2.registry.length := by
          rw [hlen, List.length_set]
          exact hidx
        cases hsbN : st2.registry.get? h.idx with
        | none => exact absurd (List.get?_eq_none.mp hsbN) (not_le.mpr hlt2)
        | some sbN =>
            obtain ⟨sb1, hsb1, hdiff⟩ := hslots h.idx sbN hsbN
            rw [get?_set_self _ _ _ hidx] at hsb1
            cases Option.some.inj hsb1
            exact ⟨sbN, rfl, hdiff.2.2.2.2.2.2.2.1 rfl⟩
    · rw [if_neg hl]
      exact ⟨_, rfl, rfl, fun _ => rfl, fun hx => absurd hx (by simp)⟩
  · intro cfg env level fn msg sink_h sL ec hlev hsinkL hsl hab
    exact ⟨_, logv_eq_abort cfg env ss st level fn msg sink_h sL ec
      (not_lt.mpr hlev) hsinkL hsl hab, rfl,
      redrawAll_abort_neg env _ 0 st.registry ec hab⟩

/-! ## Witnesses: the claim theorems applied at concrete inputs -/

/-- Witness for C2 at a concrete two-slot state, including an out-of-range
handle refused with `-2`. -/
theorem validate_four_cases_witness :
    _IsValidStatusbarHandle stTwo ⟨0, 1, true⟩ = 0 ∧
    _IsValidStatusbarHandle stTwo ⟨5, 1, true⟩ = -2 ∧
    IsValidSinkHandle ssTwo hSinkA = .ok 0 := by
  obtain ⟨a1, _, _, _, _, b1, _, _, _, _⟩ :=
    validate_four_cases stTwo ⟨0, 1, true⟩ ssTwo hSinkA (by decide)
      (by decide)
  obtain ⟨_, _, c3, _, _, _, _, _, _, _⟩ :=
    validate_four_cases stTwo ⟨5, 1, true⟩ ssTwo hSinkA (by decide)
      (by decide)
  exact ⟨a1.mpr ⟨rfl, by decide, ⟨sbOnA, rfl, rfl⟩, by decide⟩,
    c3.mpr ⟨rfl, by decide⟩,
    b1.mpr ⟨rfl, by decide, ⟨sink0, rfl, rfl⟩, by decide⟩⟩

/-- Witness for the amended C3: an out-of-range percentage is refused with
`-7` and the state differs at most by the log redraw. -/
theorem update_percent_index_checks_and_mutation_witness :
    ∃ st2 : SbState,
      UpdateStatusbar cfgW envW ssTwo stTwo ⟨0, 1, true⟩ 0 150 =
        .ok ⟨-7, st2, false⟩ ∧ _RedrawOnlyDiff stTwo st2 :=
  (update_percent_index_checks_and_mutation cfgW envW ssTwo stTwo
    ⟨0, 1, true⟩ 0 150 sbOnA sink0 rfl rfl rfl rfl).1 (Or.inl (by decide))

/-- Witness for the amended C4 at a concrete two-sink state. -/
theorem logv_line_move_redraw_witness :
    ∃ r : LogResult,
      LogV cfgW envW ssTwo stTwo .kLogLevelErr [] [] hSinkA = .ok r ∧
      r.status = 0 ∧ r.redrawn = _allBarPairs stTwo.registry := by
  obtain ⟨r, h1, h2, _, _, _, _, h7⟩ :=
    logv_line_move_redraw cfgW envW ssTwo stTwo .kLogLevelErr [] [] hSinkA
      sink0 (by decide) (by decide) rfl rfl rfl
  exact ⟨r, h1, h2, h7⟩

/-- Witness for C5 at a concrete two-statusbar state. -/
theorem handle_roundtrip_slot_reuse_stale_invalid_witness :
    (∃ r : SbOpResult,
      CreateStatusbarHandle cfgW ssTwo stTwo ⟨0, 0, false⟩ hSinkA [1] [10]
        [[]] [[]] = .ok r ∧ r.status = 0 ∧
      _IsValidStatusbarHandle r.st r.h = 0) ∧
    (∃ r : SbOpResult,
      DestroyStatusbarHandle ssTwo stTwo ⟨0, 1, true⟩ = .ok r ∧
      r.status = 0 ∧
      ∀ st2 : SbState, _IsValidStatusbarHandle st2 r.h = -1) ∧
    (∃ rd rc : SbOpResult,
      DestroyStatusbarHandle ssTwo stTwo ⟨0, 1, true⟩ = .ok rd ∧
      CreateStatusbarHandle cfgW ssTwo rd.st rd.h hSinkA [1] [10] [[]]
        [[]] = .ok rc ∧
      rc.status = 0 ∧ rc.h.idx = (⟨0, 1, true⟩ : StatusbarHandle).idx ∧
      (⟨0, 1, true⟩ : StatusbarHandle).id < rc.h.id) ∧
    _IsValidStatusbarHandle (applySbOps cfgW ssTwo stAfterDestroy opsW)
      ⟨0, 1, true⟩ = -3 := by
  obtain ⟨p1, p2, p3, p4⟩ := handle_roundtrip_slot_reuse_stale_invalid cfgW
  refine ⟨?_, ?_, ?_, ?_⟩
  · exact p1 ssTwo stTwo ⟨0, 0, false⟩ hSinkA [1] [10] [[]] [[]] rfl
      (by decide) rfl rfl rfl (by decide)
      (fun fh hf => absurd hf (by simp [stTwo])) (by decide)
  · exact p2 ssTwo stTwo ⟨0, 1, true⟩ sbOnA rfl rfl rfl
  · exact p3 ssTwo stTwo ⟨0, 1, true⟩ sbOnA hSinkA [1] [10] [[]] [[]] rfl
      rfl rfl rfl rfl rfl rfl (by decide) (by decide) (by decide)
      (by decide) (by decide)
  · exact p4 ssTwo stTwo ⟨0, 1, true⟩ sbOnA opsW rfl rfl rfl (by decide)
      (by decide) ⟨0, stAfterDestroy, ⟨0, 0, false⟩⟩ rfl

/-- Witness for C6: the `(kMax+1)`-th statusbar creation fails with `-4`,
and the `(kMaxSinkHandles+1)`-th sink creation fails with `-2`. -/
theorem capacity_exceeded_iff_and_sequence_witness :
    (∃ r : SbOpResult,
      CreateStatusbarHandle cfgW ssTwo
        (sbCreateIter cfgW ssTwo hSinkA cfgW.kMaxStatusbarHandles) default
        hSinkA [1] [10] [[]] [[]] = .ok r ∧ r.status = -4) ∧
    (∃ r : SinkOpResult,
      CreateSinkStdout (sinkCreateIter kMaxSinkHandles) default = .ok r ∧
      r.status = -2) :=
  ⟨(capacity_exceeded_iff_and_sequence cfgW ssTwo hSinkA rfl (by decide)
      (by decide) (by decide)).2.2.2.1,
    (capacity_exceeded_iff_and_sequence cfgW ssTwo hSinkA rfl (by decide)
      (by decide) (by decide)).2.2.2.2.2.2.1⟩

/-- Witness for C7 at `percent = 50`, `width = 10`. -/
theorem renderer_fill_count_truncation_fallback_witness :
    (_BarInterior 50 10 (spinner.getD (0 % 4) 0)).count 35 =
      _BarFill 50 10 ∧
    _BarFill 50 10 =
      (Int.floor ((50 : ℚ) * ((10 : Nat) : ℚ) / 100)).toNat := by
  obtain ⟨⟨a, b, _⟩, _⟩ :=
    renderer_fill_count_truncation_fallback 50 10 [] [] 0 envW (by decide)
      (by decide)
  exact ⟨a, b⟩

/-- Witness for C9's double-destroy half at the concrete post-destroy
state of the file sink. -/
theorem destroySinkHandle_close_failure_partial_mutation_witness :
    rFileDestroyed.status = 0 ∧ rFileDestroyed.h.valid = false ∧
    DestroySinkHandle envW rFileDestroyed.ss rFileDestroyed.h =
      .ok ⟨-1, rFileDestroyed.ss, rFileDestroyed.h⟩ :=
  destroySinkHandle_close_failure_partial_mutation.2 rFileDestroyed rfl

/-- Witness for C10's first half at a concrete state: the update returns
Success. -/
theorem update_swallows_draw_errors_log_escalates_witness :
    ∃ r : UpdateResult,
      UpdateStatusbar cfgW envW ssTwo stTwo ⟨0, 1, true⟩ 0 50 = .ok r ∧
      r.status = 0 := by
  obtain ⟨q1, _⟩ := update_swallows_draw_errors_log_escalates ssTwo stTwo
    ⟨0, 1, true⟩ 0 50 sbOnA sink0 rfl rfl rfl rfl (by decide) (by decide)
    (by decide)
  obtain ⟨r, hr, hs, _, _⟩ := q1 cfgW envW
  exact ⟨r, hr, hs⟩

end StatusbarLog
